import Mathlib

/-!
Verification development for the mcp-polygon server (`src/server.py`).

The file shallowly embeds the tool-dispatch and request-shaping layer of the
server: the JSON data model, the per-tool query/path builders, the shared
`_polygon_get` HTTP helper (with the upstream stubbed as an explicit
`Upstream` value), the market-session classifier, and the result envelope of
every registered tool.  Python exceptions are modelled by `Except String`:
`Except.error m` is an exception propagating out of the tool function,
`Except.ok s` is a returned string.  JSON numbers are modelled as integers
(the claims under study never hinge on float-valued payloads) and Python
floats appearing as tool arguments are modelled as rationals.
-/

/-! ### Small string helpers -/

/-- Python `str.upper()` (ASCII; tickers in this code base are ASCII). -/
def pyUpper (s : String) : String := String.mk (s.toList.map Char.toUpper)

/-- Zero-pad a natural number to two digits, as `"%02d"`. -/
def pad2 (n : Nat) : String := if n < 10 then "0" ++ toString n else toString n

/-- Zero-pad a natural number to four digits, as `"%04d"`. -/
def pad4 (n : Nat) : String :=
  if n < 10 then "000" ++ toString n
  else if n < 100 then "00" ++ toString n
  else if n < 1000 then "0" ++ toString n
  else toString n

/-- Render a year as `strftime("%Y")` does for the dates reachable here. -/
def padYear (y : Int) : String :=
  if y < 0 then "-" ++ toString (-y) else pad4 y.toNat

/-- One lowercase hex digit. -/
def hexDigit (n : Nat) : String := String.mk ["0123456789abcdef".toList.getD n '0']

/-- Two lowercase hex digits of a byte. -/
def hex2 (n : Nat) : String := hexDigit (n / 16) ++ hexDigit (n % 16)

/-- Python `needle in haystack` for strings (substring test). -/
def strContains (haystack needle : String) : Bool :=
  (haystack.splitOn needle).length > 1

/-! ### JSON values

A mutual inductive keeps all recursion structural, so every function below
computes by `rfl`/`decide`.  `jarr`/`jobj` convert ordinary Lean lists into
the mutual list types for writing literals. -/

mutual
inductive Json where
  | null : Json
  | bool : Bool → Json
  | num : Int → Json
  | str : String → Json
  | arr : JsonList → Json
  | obj : JsonObj → Json
inductive JsonList where
  | nil : JsonList
  | cons : Json → JsonList → JsonList
inductive JsonObj where
  | nil : JsonObj
  | cons : String → Json → JsonObj → JsonObj
end

def jlist : List Json → JsonList
  | [] => .nil
  | x :: t => .cons x (jlist t)

def jarr (xs : List Json) : Json := .arr (jlist xs)

def jfields : List (String × Json) → JsonObj
  | [] => .nil
  | (k, v) :: t => .cons k v (jfields t)

def jobj (fs : List (String × Json)) : Json := .obj (jfields fs)

/-- First-match association lookup on a JSON object (Python `dict` keys are
unique, so first match is the match). -/
def JsonObj.lookup : JsonObj → String → Option Json
  | .nil, _ => none
  | .cons k v t, q => if k = q then some v else JsonObj.lookup t q

/-- Python `d[k] = v` on a dict: replace in place if the key exists (keeping
its original insertion position), otherwise append at the end. -/
def JsonObj.set : JsonObj → String → Json → JsonObj
  | .nil, k, v => .cons k v .nil
  | .cons k' v' t, k, v =>
      if k' = k then .cons k v t else .cons k' v' (JsonObj.set t k v)

def JsonObj.keys : JsonObj → List String
  | .nil => []
  | .cons k _ t => k :: JsonObj.keys t

def JsonObj.hasKey (o : JsonObj) (k : String) : Bool := (o.lookup k).isSome

/-- Python `x in l` for a list `l` against a string `x`: `True` iff some
element equals the string. -/
def JsonList.containsStr : JsonList → String → Bool
  | .nil, _ => false
  | .cons (.str s) t, q => s = q || JsonList.containsStr t q
  | .cons _ t, q => JsonList.containsStr t q

/-- Python truthiness of a parsed JSON value. -/
def Json.truthy : Json → Bool
  | .null => false
  | .bool b => b
  | .num n => n != 0
  | .str s => s != ""
  | .arr .nil => false
  | .arr _ => true
  | .obj .nil => false
  | .obj _ => true

/-! ### `json.dumps(..., indent=2)` -/

/-- JSON string escaping as `json.dumps` performs it (ASCII payloads). -/
def jsonEscChar (c : Char) : String :=
  if c = '"' then "\\\""
  else if c = '\\' then "\\\\"
  else if c = '\n' then "\\n"
  else if c = '\t' then "\\t"
  else if c = '\r' then "\\r"
  else if c.toNat < 32 then "\\u00" ++ hex2 c.toNat
  else String.mk [c]

def jsonEscape (s : String) : String := String.join (s.toList.map jsonEscChar)

def indentStr (d : Nat) : String := String.mk (List.replicate (2 * d) ' ')

mutual
/-- `json.dumps(j, indent=2)` at nesting depth `d` (top level is `d = 0`). -/
def Json.dumps : Json → Nat → String
  | .null, _ => "null"
  | .bool true, _ => "true"
  | .bool false, _ => "false"
  | .num n, _ => toString n
  | .str s, _ => "\"" ++ jsonEscape s ++ "\""
  | .arr .nil, _ => "[]"
  | .arr l, d => "[\n" ++ JsonList.dumpItems l (d + 1) ++ "\n" ++ indentStr d ++ "]"
  | .obj .nil, _ => "\x7b\x7d"
  | .obj o, d => "\x7b\n" ++ JsonObj.dumpItems o (d + 1) ++ "\n" ++ indentStr d ++ "\x7d"
def JsonList.dumpItems : JsonList → Nat → String
  | .nil, _ => ""
  | .cons x .nil, d => indentStr d ++ Json.dumps x d
  | .cons x t, d => indentStr d ++ Json.dumps x d ++ ",\n" ++ JsonList.dumpItems t d
def JsonObj.dumpItems : JsonObj → Nat → String
  | .nil, _ => ""
  | .cons k v .nil, d => indentStr d ++ "\"" ++ jsonEscape k ++ "\": " ++ Json.dumps v d
  | .cons k v t, d =>
      indentStr d ++ "\"" ++ jsonEscape k ++ "\": " ++ Json.dumps v d ++ ",\n" ++
        JsonObj.dumpItems t d
end

/-! ### Python `str`/`repr` of parsed JSON values

`stock_price`, `stock_info` and `income_statement` interpolate parsed
payloads into f-strings, which calls `str(...)`; on containers that is
`repr(...)`. -/

/-- Python `repr` escaping inside a single-quoted string literal. -/
def pyReprEscChar (c : Char) : String :=
  if c = '\\' then "\\\\"
  else if c = Char.ofNat 39 then "\\\x27"
  else if c = '\n' then "\\n"
  else if c = '\t' then "\\t"
  else if c = '\r' then "\\r"
  else if c.toNat < 32 then "\\x" ++ hex2 c.toNat
  else String.mk [c]

def pyReprEscape (s : String) : String := String.join (s.toList.map pyReprEscChar)

mutual
/-- Python `repr` of a parsed JSON value. -/
def Json.pyRepr : Json → String
  | .null => "None"
  | .bool true => "True"
  | .bool false => "False"
  | .num n => toString n
  | .str s => "\x27" ++ pyReprEscape s ++ "\x27"
  | .arr .nil => "[]"
  | .arr l => "[" ++ JsonList.reprItems l ++ "]"
  | .obj .nil => "\x7b\x7d"
  | .obj o => "\x7b" ++ JsonObj.reprItems o ++ "\x7d"
def JsonList.reprItems : JsonList → String
  | .nil => ""
  | .cons x .nil => Json.pyRepr x
  | .cons x t => Json.pyRepr x ++ ", " ++ JsonList.reprItems t
def JsonObj.reprItems : JsonObj → String
  | .nil => ""
  | .cons k v .nil => "\x27" ++ pyReprEscape k ++ "\x27: " ++ Json.pyRepr v
  | .cons k v t =>
      "\x27" ++ pyReprEscape k ++ "\x27: " ++ Json.pyRepr v ++ ", " ++ JsonObj.reprItems t
end

/-- Python `str` of a parsed JSON value (as used by f-string interpolation). -/
def Json.pyStr : Json → String
  | .str s => s
  | j => j.pyRepr

/-! ### Dates and times

`datetime.fromtimestamp(ts, tz=timezone.utc)` via the standard civil-from-days
algorithm; enough of `strftime` for the formats the server uses. -/

structure DateTime where
  year : Int
  month : Nat
  day : Nat
  hour : Nat
  minute : Nat
  second : Nat
deriving DecidableEq

/-- Proleptic-Gregorian date of a day count from 1970-01-01. -/
def civilFromDays (z0 : Int) : Int × Nat × Nat :=
  let z := z0 + 719468
  let era := z.fdiv 146097
  let doe := (z - era * 146097).toNat
  let yoe := (doe - doe / 1460 + doe / 36524 - doe / 146096) / 365
  let y : Int := (yoe : Int) + era * 400
  let doy := doe - (365 * yoe + yoe / 4 - yoe / 100)
  let mp := (5 * doy + 2) / 153
  let d := doy - (153 * mp + 2) / 5 + 1
  let m := if mp < 10 then mp + 3 else mp - 9
  (if m ≤ 2 then y + 1 else y, m, d)

/-- The civil date-time of the instant `ts` seconds after the epoch: the
value `datetime.fromtimestamp(ts, tz=timezone.utc)` computes on its
representable range.  The raising behaviour of the CPython call outside that
range is modelled by `fromtimestampPy` below. -/
def fromtimestamp (ts : Int) : DateTime :=
  let days := ts.fdiv 86400
  let sod := (ts - days * 86400).toNat
  let c := civilFromDays days
  ⟨c.1, c.2.1, c.2.2, sod / 3600, sod % 3600 / 60, sod % 60⟩

/-- The epoch second of `datetime.min` (0001-01-01T00:00:00 UTC), the
smallest instant a `datetime` can represent. -/
def datetimeMinTs : Int := -62135596800

/-- The epoch second of `datetime.max` truncated to seconds
(9999-12-31T23:59:59 UTC), the largest integral instant
`datetime.fromtimestamp` accepts. -/
def datetimeMaxTs : Int := 253402300799

/-- `datetime.fromtimestamp(ts, tz=timezone.utc)`: raises `ValueError`
("year ... is out of range") for instants outside datetime's year range
1-9999, i.e. outside `[datetimeMinTs, datetimeMaxTs]`.  The message text
comes from CPython; only its existence matters here. -/
def fromtimestampPy (ts : Int) : Except String DateTime :=
  if datetimeMinTs ≤ ts ∧ ts ≤ datetimeMaxTs then .ok (fromtimestamp ts)
  else .error "year is out of range"

/-- `dt + timedelta(hours=h)` for the datetime of instant `ts`: the datetime
of `ts + h*3600`, raising `OverflowError` ("date value out of range") when
the result leaves datetime's representable range. -/
def timedeltaHoursPy (ts h : Int) : Except String DateTime :=
  if datetimeMinTs ≤ ts + h * 3600 ∧ ts + h * 3600 ≤ datetimeMaxTs then
    .ok (fromtimestamp (ts + h * 3600))
  else .error "date value out of range"

/-- `strftime("%Y-%m-%d")`. -/
def fmtYMD (dt : DateTime) : String :=
  padYear dt.year ++ "-" ++ pad2 dt.month ++ "-" ++ pad2 dt.day

/-- `strftime("%Y-%m-%d %H:%M:%S")`. -/
def fmtYMDHMS (dt : DateTime) : String :=
  fmtYMD dt ++ " " ++ pad2 dt.hour ++ ":" ++ pad2 dt.minute ++ ":" ++ pad2 dt.second

/-- A Python `datetime.date` value. -/
structure PyDate where
  year : Int
  month : Nat
  day : Nat
deriving DecidableEq

def fmtDateYMD (d : PyDate) : String :=
  padYear d.year ++ "-" ++ pad2 d.month ++ "-" ++ pad2 d.day

/-! ### Market-session classifier (`_determine_market_session`, lines 576-587) -/

def _determine_market_session (hour : Nat) (minute : Nat) : String :=
  let time_minutes := hour * 60 + minute
  if 240 ≤ time_minutes ∧ time_minutes < 570 then "pre_market"
  else if 570 ≤ time_minutes ∧ time_minutes < 960 then "regular_market"
  else if 960 ≤ time_minutes ∧ time_minutes < 1200 then "after_hours"
  else "market_closed"

/-! ### Date-valued tool arguments

`get_aggregates` and `get_intraday_aggregates` declare
`from_date`/`to_date : Union[str, int, datetime, date]`.  Only `datetime` and
`date` values are converted with `strftime("%Y-%m-%d")` (lines 183-186 and
677-680); `str` and `int` values reach the f-string path unchanged. -/

inductive DateArg where
  | str : String → DateArg
  | int : Int → DateArg
  | datetime : DateTime → DateArg
  | date : PyDate → DateArg
deriving DecidableEq

/-- The value interpolated for a date argument after the
`isinstance(..., (datetime, date))` conversion. -/
def dateArgToStr : DateArg → String
  | .str s => s
  | .int n => toString n
  | .datetime dt => fmtYMD dt
  | .date d => fmtDateYMD d

/-- Path built by `get_aggregates` (line 188). -/
def get_aggregates_path (ticker : String) (multiplier : Int) (timespan : String)
    (from_date to_date : DateArg) : String :=
  "/v2/aggs/ticker/" ++ pyUpper ticker ++ "/range/" ++ toString multiplier ++ "/" ++
    timespan ++ "/" ++ dateArgToStr from_date ++ "/" ++ dateArgToStr to_date

/-- Path built by `get_intraday_aggregates` (line 682); textually the same
formula as `get_aggregates`. -/
def get_intraday_aggregates_path (ticker : String) (multiplier : Int) (timespan : String)
    (from_date to_date : DateArg) : String :=
  "/v2/aggs/ticker/" ++ pyUpper ticker ++ "/range/" ++ toString multiplier ++ "/" ++
    timespan ++ "/" ++ dateArgToStr from_date ++ "/" ++ dateArgToStr to_date

/-! ### Query parameters

A query mapping is an insertion-ordered association list, as a Python dict
is.  `dictSet` is `params[k] = v`: replace in place if the key exists,
else append. -/

inductive QVal where
  | s : String → QVal
  | i : Int → QVal
  | f : Rat → QVal
deriving DecidableEq

abbrev Params := List (String × QVal)

def pkeys (p : Params) : List String := p.map Prod.fst

def dictSet (p : Params) (k : String) (v : QVal) : Params :=
  if k ∈ pkeys p then p.map (fun q => if q.1 = k then (k, v) else q)
  else p ++ [(k, v)]

/-- Python truthiness of an optional string argument (`if s:`). -/
def truthyOptStr : Option String → Bool
  | none => false
  | some s => s != ""

/-- Python truthiness of an optional int argument (`if n:`). -/
def truthyOptInt : Option Int → Bool
  | none => false
  | some n => n != 0

/-- Python truthiness of an optional float argument (`if x:`). -/
def truthyOptFloat : Option Rat → Bool
  | none => false
  | some x => x != 0

/-- `str(b).lower()` for a Python bool. -/
def pyBoolStr (b : Bool) : String := if b then "true" else "false"

/-- One conditional insertion step of a builder.  Each constructor is one of
the repeated `if <arg>: params[<key>] = ...` statement shapes of
`server.py`. -/
inductive OptIns where
  | ifTruthyStr : String → Option String → OptIns
  | ifTruthyStrUpper : String → Option String → OptIns
  | ifTruthyInt : String → Option Int → OptIns
  | ifTruthyFloat : String → Option Rat → OptIns
  | ifTruthyFlag : String → Bool → OptIns
  | ifNotNoneBool : String → Option Bool → OptIns

/-- Execute one conditional insertion on the accumulated dict. -/
def applyIns (p : Params) : OptIns → Params
  | .ifTruthyStr k v =>
      match v with
      | some s => if s != "" then dictSet p k (.s s) else p
      | none => p
  | .ifTruthyStrUpper k v =>
      match v with
      | some s => if s != "" then dictSet p k (.s (pyUpper s)) else p
      | none => p
  | .ifTruthyInt k v =>
      match v with
      | some n => if n != 0 then dictSet p k (.i n) else p
      | none => p
  | .ifTruthyFloat k v =>
      match v with
      | some x => if x != 0 then dictSet p k (.f x) else p
      | none => p
  | .ifTruthyFlag k v => if v then dictSet p k (.s "true") else p
  | .ifNotNoneBool k v =>
      match v with
      | some b => dictSet p k (.s (pyBoolStr b))
      | none => p

def buildParams (init : Params) (l : List OptIns) : Params := l.foldl applyIns init

def insKey : OptIns → String
  | .ifTruthyStr k _ => k
  | .ifTruthyStrUpper k _ => k
  | .ifTruthyInt k _ => k
  | .ifTruthyFloat k _ => k
  | .ifTruthyFlag k _ => k
  | .ifNotNoneBool k _ => k

/-- Whether the conditional insertion actually fires. -/
def insActive : OptIns → Bool
  | .ifTruthyStr _ v => truthyOptStr v
  | .ifTruthyStrUpper _ v => truthyOptStr v
  | .ifTruthyInt _ v => truthyOptInt v
  | .ifTruthyFloat _ v => truthyOptFloat v
  | .ifTruthyFlag _ v => v
  | .ifNotNoneBool _ v => v.isSome

/-! ### Per-tool argument records and query builders

Each `<tool>_params` definition lists, in source order, the dict literal the
tool starts from and the conditional insertions it performs. -/

/-- Arguments of `get_aggregates` (lines 154-163). -/
structure AggArgs where
  ticker : String
  multiplier : Int
  timespan : String
  from_date : DateArg
  to_date : DateArg
  adjusted : Option Bool
  sort : Option String
  limit : Option Int

/-- Query built by `get_aggregates` (lines 189-195). -/
def get_aggregates_params (a : AggArgs) : Params :=
  buildParams [] [.ifNotNoneBool "adjusted" a.adjusted, .ifTruthyStr "sort" a.sort,
    .ifTruthyInt "limit" a.limit]

/-- Arguments of `get_previous_close` (line 203). -/
structure PrevCloseArgs where
  ticker : String
  adjusted : Option Bool

/-- Query built by `get_previous_close` (lines 216-218). -/
def get_previous_close_params (a : PrevCloseArgs) : Params :=
  buildParams [] [.ifNotNoneBool "adjusted" a.adjusted]

/-- Arguments of `search_tickers` (lines 296-304). -/
structure SearchTickersArgs where
  search : Option String
  type : Option String
  market : Option String
  active : Option Bool
  limit : Option Int
  sort : Option String
  order : Option String

/-- Query built by `search_tickers` (lines 322-336). -/
def search_tickers_params (a : SearchTickersArgs) : Params :=
  buildParams [] [.ifTruthyStr "search" a.search, .ifTruthyStr "type" a.type,
    .ifTruthyStr "market" a.market, .ifNotNoneBool "active" a.active,
    .ifTruthyInt "limit" a.limit, .ifTruthyStr "sort" a.sort,
    .ifTruthyStr "order" a.order]

/-- Arguments of `get_ticker_news` (lines 344-349). -/
structure NewsArgs where
  ticker : Option String
  published_utc : Option String
  limit : Option Int
  sort : Option String
  order : Option String

/-- Query built by `get_ticker_news` (lines 366-376). -/
def get_ticker_news_params (a : NewsArgs) : Params :=
  buildParams [] [.ifTruthyStrUpper "ticker" a.ticker,
    .ifTruthyStr "published_utc" a.published_utc, .ifTruthyInt "limit" a.limit,
    .ifTruthyStr "sort" a.sort, .ifTruthyStr "order" a.order]

/-- Arguments of `get_dividends` (lines 384-389). -/
structure DividendsArgs where
  ticker : Option String
  ex_dividend_date : Option String
  frequency : Option Int
  dividend_type : Option String
  limit : Option Int

/-- Query built by `get_dividends` (lines 406-416). -/
def get_dividends_params (a : DividendsArgs) : Params :=
  buildParams [] [.ifTruthyStrUpper "ticker" a.ticker,
    .ifTruthyStr "ex_dividend_date" a.ex_dividend_date, .ifTruthyInt "frequency" a.frequency,
    .ifTruthyStr "dividend_type" a.dividend_type, .ifTruthyInt "limit" a.limit]

/-- Arguments of `get_splits` (lines 424-428). -/
structure SplitsArgs where
  ticker : Option String
  execution_date : Option String
  reverse_split : Option Bool
  limit : Option Int

/-- Query built by `get_splits` (lines 444-452). -/
def get_splits_params (a : SplitsArgs) : Params :=
  buildParams [] [.ifTruthyStrUpper "ticker" a.ticker,
    .ifTruthyStr "execution_date" a.execution_date, .ifNotNoneBool "reverse_split" a.reverse_split,
    .ifTruthyInt "limit" a.limit]

/-- Arguments of `get_treasury_yields` (lines 460-464). -/
structure TreasuryArgs where
  date : Option String
  limit : Option Int
  sort : Option String
  order : Option String

/-- Query built by `get_treasury_yields` (lines 480-488). -/
def get_treasury_yields_params (a : TreasuryArgs) : Params :=
  buildParams [] [.ifTruthyStr "date" a.date, .ifTruthyInt "limit" a.limit,
    .ifTruthyStr "sort" a.sort, .ifTruthyStr "order" a.order]

/-- Arguments of `get_intraday_aggregates` (lines 647-656). -/
structure IntradayArgs where
  ticker : String
  multiplier : Int
  timespan : String
  from_date : DateArg
  to_date : DateArg
  adjusted : Option Bool
  sort : Option String
  limit : Option Int
  include_otc : Bool

/-- Query built by `get_intraday_aggregates` (lines 683-691). -/
def get_intraday_aggregates_params (a : IntradayArgs) : Params :=
  buildParams [] [.ifNotNoneBool "adjusted" a.adjusted, .ifTruthyStr "sort" a.sort,
    .ifTruthyInt "limit" a.limit, .ifTruthyFlag "include_otc" a.include_otc]

/-- Arguments of `get_earnings` (lines 836-841). -/
structure EarningsArgs where
  ticker : Option String
  date : Option String
  limit : Option Int
  sort : Option String
  order : Option String

/-- Query built by `get_earnings` (lines 857-868). -/
def get_earnings_params (a : EarningsArgs) : Params :=
  buildParams [] [.ifTruthyStrUpper "ticker" a.ticker, .ifTruthyStr "date" a.date,
    .ifTruthyInt "limit" a.limit, .ifTruthyStr "sort" a.sort, .ifTruthyStr "order" a.order]

/-- Arguments of `get_analyst_ratings` (lines 876-881). -/
structure AnalystArgs where
  ticker : Option String
  date : Option String
  limit : Option Int
  sort : Option String
  order : Option String

/-- Query built by `get_analyst_ratings` (lines 897-908). -/
def get_analyst_ratings_params (a : AnalystArgs) : Params :=
  buildParams [] [.ifTruthyStrUpper "ticker" a.ticker, .ifTruthyStr "date" a.date,
    .ifTruthyInt "limit" a.limit, .ifTruthyStr "sort" a.sort, .ifTruthyStr "order" a.order]

/-- Arguments of `get_short_interest` (lines 916-921). -/
structure ShortInterestArgs where
  ticker : Option String
  settlement_date : Option String
  limit : Option Int
  sort : Option String
  order : Option String

/-- Query built by `get_short_interest` (lines 937-948). -/
def get_short_interest_params (a : ShortInterestArgs) : Params :=
  buildParams [] [.ifTruthyStrUpper "ticker" a.ticker,
    .ifTruthyStr "settlement_date" a.settlement_date, .ifTruthyInt "limit" a.limit,
    .ifTruthyStr "sort" a.sort, .ifTruthyStr "order" a.order]

/-- Arguments of `get_options_contracts` (lines 955-961). -/
structure OptionsContractsArgs where
  underlying_asset : String
  contract_type : Option String
  strike_price : Option Rat
  expiration_date : Option String
  limit : Option Int

/-- Query built by `get_options_contracts` (lines 978-986). -/
def get_options_contracts_params (a : OptionsContractsArgs) : Params :=
  buildParams [("underlying_asset", .s (pyUpper a.underlying_asset))]
    [.ifTruthyStr "contract_type" a.contract_type, .ifTruthyFloat "strike_price" a.strike_price,
     .ifTruthyStr "expiration_date" a.expiration_date, .ifTruthyInt "limit" a.limit]

/-- Arguments of `get_options_snapshot` (lines 993-998). -/
structure OptionsSnapshotArgs where
  underlying_asset : String
  strike_price : Option Rat
  expiration_date : Option String
  contract_type : Option String

/-- Query built by `get_options_snapshot` (lines 1014-1020). -/
def get_options_snapshot_params (a : OptionsSnapshotArgs) : Params :=
  buildParams [] [.ifTruthyFloat "strike_price" a.strike_price,
    .ifTruthyStr "expiration_date" a.expiration_date, .ifTruthyStr "contract_type" a.contract_type]

/-- Arguments of `get_balance_sheet` (lines 1027-1032); `timeframe` and
`order` carry the declared defaults `"quarterly"` and `"desc"`, so omitting
them in an invocation means supplying those values here. -/
structure BalanceSheetArgs where
  ticker : String
  timeframe : String
  limit : Option Int
  order : String

/-- Query built by `get_balance_sheet` (lines 1047-1054): a dict literal with
`ticker`, `timeframe`, `order`, then a conditional `limit`. -/
def get_balance_sheet_params (a : BalanceSheetArgs) : Params :=
  buildParams [("ticker", .s (pyUpper a.ticker)), ("timeframe", .s a.timeframe),
    ("order", .s a.order)] [.ifTruthyInt "limit" a.limit]

/-- Arguments of `get_cash_flow` (lines 1061-1066). -/
structure CashFlowArgs where
  ticker : String
  timeframe : String
  limit : Option Int
  order : String

/-- Query built by `get_cash_flow` (lines 1081-1088). -/
def get_cash_flow_params (a : CashFlowArgs) : Params :=
  buildParams [("ticker", .s (pyUpper a.ticker)), ("timeframe", .s a.timeframe),
    ("order", .s a.order)] [.ifTruthyInt "limit" a.limit]

/-- Arguments of `get_market_gainers_losers` (lines 1095-1099). -/
structure GainersArgs where
  direction : String
  include_otc : Bool
  limit : Option Int

/-- Query built by `get_market_gainers_losers` (lines 1114-1118). -/
def get_market_gainers_losers_params (a : GainersArgs) : Params :=
  buildParams [] [.ifTruthyFlag "include_otc" a.include_otc, .ifTruthyInt "limit" a.limit]

/-- Arguments of `get_inflation_data` (lines 1140-1144). -/
structure InflationArgs where
  date : Option String
  limit : Option Int
  sort : Option String

/-- Query built by `get_inflation_data` (lines 1158-1165). -/
def get_inflation_data_params (a : InflationArgs) : Params :=
  buildParams [] [.ifTruthyStr "date" a.date, .ifTruthyInt "limit" a.limit,
    .ifTruthyStr "sort" a.sort]

/-- Query built by `stock_price` (line 96): a fixed dict literal. -/
def stock_price_params : Params :=
  [("adjusted", .s "true"), ("sort", .s "asc"), ("limit", .i 5000)]

/-- Query built by `income_statement` (line 146). -/
def income_statement_params (stock_ticker : String) : Params :=
  [("ticker", .s (pyUpper stock_ticker)), ("timeframe", .s "quarterly"),
   ("limit", .i 1), ("order", .s "desc")]

/-- Credential injection of `_polygon_get` (lines 69-70):
`params = dict(params or {}); params["apiKey"] = api_key`. -/
def polygonGetParams (p : Params) (api_key : String) : Params :=
  dictSet p "apiKey" (.s api_key)

/-! ### The stubbed upstream and `_polygon_get` (lines 58-73)

`Upstream` is the behaviour of the stubbed `requests.get` call: a network
error (exception from `requests.get`), or a response with a status code and
either a decodable JSON body or an undecodable one (`none`). -/

inductive Upstream where
  | netError : String → Upstream
  | resp : Nat → Option Json → Upstream

/-- `_require_polygon_api_key` (lines 58-62) followed by the GET, the
`raise_for_status()` (raises for status 400-599; the message text comes from
the external `requests` library, only its existence matters here) and
`response.json()` (raises on an undecodable body).  The caller's query
parameters do not influence the stubbed response. -/
def polygonGet (api_key : Option String) (u : Upstream) : Except String Json :=
  match api_key with
  | none => .error "POLYGON_API_KEY environment variable is not set"
  | some _ =>
    match u with
    | .netError m => .error m
    | .resp status body =>
      if 400 ≤ status ∧ status < 600 then .error ("HTTP error " ++ toString status)
      else
        match body with
        | none => .error "Expecting value: line 1 column 1 (char 0)"
        | some j => .ok j

/-- The `try: ... except Exception as e: return f"Error: {str(e)}"` pattern
wrapping the body of every enhanced tool. -/
def pyTry (r : Except String String) : Except String String :=
  match r with
  | .error m => .ok ("Error: " ++ m)
  | .ok s => .ok s

/-! ### Static reference documents (lines 517-541, 598-643, 718-745, 755-787)

Hand-authored dict literals returned without any upstream call, transcribed
field for field in source order. -/

/-- The `market_hours` literal of `get_market_hours_info` (lines 517-540). -/
def market_hours_json : Json :=
  jobj [
    ("pre_market", jobj [("start", .str "04:00"), ("end", .str "09:30"),
      ("timezone", .str "ET")]),
    ("regular_market", jobj [("start", .str "09:30"), ("end", .str "16:00"),
      ("timezone", .str "ET")]),
    ("after_hours", jobj [("start", .str "16:00"), ("end", .str "20:00"),
      ("timezone", .str "ET")]),
    ("important_notes", jarr [
      .str "All Polygon timestamps are in UTC (Unix timestamps)",
      .str "Convert UTC to ET for market hour alignment",
      .str "Pre-market: 4:00 AM - 9:30 AM ET",
      .str "Regular market: 9:30 AM - 4:00 PM ET",
      .str "After-hours: 4:00 PM - 8:00 PM ET"])]

/-- The `exchanges` literal of `get_exchange_info` (lines 598-642). -/
def exchanges_json : Json :=
  jobj [
    ("major_exchanges", jarr [
      jobj [("name", .str "New York Stock Exchange"),
        ("symbols", jarr [.str "NYSE", .str "NYSE American", .str "NYSE Arca",
          .str "NYSE Chicago", .str "NYSE National"])],
      jobj [("name", .str "Nasdaq"),
        ("symbols", jarr [.str "OMX", .str "BX", .str "PSX", .str "Philadelphia"])],
      jobj [("name", .str "Cboe Global Markets"),
        ("symbols", jarr [.str "BZX", .str "BYX", .str "EDGX", .str "EDGA"])],
      jobj [("name", .str "MIAX Exchange Group"),
        ("symbols", jarr [.str "Pearl", .str "Emerald", .str "Equities"])],
      jobj [("name", .str "Members Exchange"), ("symbols", jarr [.str "MEMX"])],
      jobj [("name", .str "Investors Exchange"), ("symbols", jarr [.str "IEX"])],
      jobj [("name", .str "Long-Term Stock Exchange"), ("symbols", jarr [.str "LTSE"])]]),
    ("additional_sources", jarr [
      jobj [("name", .str "FINRA Trading Facilities"),
        ("description", .str "Provides trade reporting but not quotes"),
        ("facilities", jarr [.str "FINRA NYSE TRF", .str "FINRA Nasdaq TRF Carteret",
          .str "FINRA Nasdaq TRF Chicago"])],
      jobj [("name", .str "OTC Reporting Facility"),
        ("description", .str "Captures OTC trades but not quotes")]]),
    ("total_coverage", .str "19 major stock exchanges + dark pools + FINRA + OTC"),
    ("data_quality", .str "Direct exchange feeds + SIP consolidation for accuracy")]

/-- The `sip_info` literal of `get_sip_info` (lines 718-744). -/
def sip_info_json : Json :=
  jobj [
    ("what_are_sips", .str "Securities Information Processors (SIPs) consolidate trade and quote data from all exchanges into a single feed"),
    ("sip_functions", jarr [
      .str "Provide National Best Bid and Offer (NBBO)",
      .str "Consolidate last sale data",
      .str "Ensure equal access to market data",
      .str "Maintain transparent and fair trading environment"]),
    ("major_sips", jarr [
      jobj [("name", .str "Consolidated Tape Association (CTA)"),
        ("coverage", .str "NYSE-listed and regional exchange securities"),
        ("tapes", jarr [.str "Tape A", .str "Tape B"])],
      jobj [("name", .str "Unlisted Trading Privileges (UTP)"),
        ("coverage", .str "All Nasdaq-listed securities"),
        ("tapes", jarr [.str "Tape C"])]]),
    ("data_flow", jarr [
      .str "Exchanges → SIPs → Polygon.io → Users",
      .str "Direct exchange feeds + SIP consolidation",
      .str "Alternative Trading Systems (ATS) report to FINRA within 10 seconds"]),
    ("importance", .str "SIPs are vital infrastructure ensuring all market participants have equal access to trade and quote data")]

/-- The `coverage_info` literal of `get_market_data_coverage` (lines 755-786). -/
def coverage_info_json : Json :=
  jobj [
    ("infrastructure", jobj [
      ("primary_facility", .str "Equinix Data Center, New Jersey"),
      ("redundancy", .str "ORD11 data center, Chicago"),
      ("co_location", .str "Strategically co-located with exchanges"),
      ("benefits", jarr [.str "Reduced latency", .str "Enhanced reliability",
        .str "Direct physical connections"])]),
    ("data_sources", jobj [
      ("exchanges", .str "All 19 major U.S. stock exchanges"),
      ("dark_pools", .str "Additional dark pool data"),
      ("finra", .str "FINRA trading facilities"),
      ("otc", .str "OTC markets"),
      ("ats", .str "Alternative Trading Systems")]),
    ("data_quality", jobj [
      ("direct_feeds", .str "Direct relationships with each exchange"),
      ("licensing", .str "Compliance with all licensing requirements"),
      ("sip_integration", .str "Combines direct exchange access with regulated SIP consolidation"),
      ("coverage", .str "Every trade, quote, and market event as it occurs")]),
    ("regulatory_compliance", jobj [
      ("personal_use", .str "Full U.S. feed available for non-industry professionals"),
      ("business_clients", .str "Tailored plans with specific exchange licensing"),
      ("monitoring", .str "Close compliance monitoring for appropriate usage")]),
    ("market_hours", jobj [
      ("pre_market", .str "4:00 AM - 9:30 AM ET"),
      ("regular_market", .str "9:30 AM - 4:00 PM ET"),
      ("after_hours", .str "4:00 PM - 8:00 PM ET"),
      ("timestamp_format", .str "Unix timestamps (UTC)")])]

/-- The `polygon_coverage` sub-literal of `get_ticker_exchange_info`
(lines 820-825). -/
def polygon_coverage_json : Json :=
  jobj [
    ("data_available", .str "Real-time trades, quotes, and market events"),
    ("exchange_feed", .str "Direct feed from primary exchange"),
    ("sip_integration", .str "Included in consolidated SIP feeds"),
    ("market_sessions", jarr [.str "pre_market", .str "regular_market", .str "after_hours"])]

/-! ### Tool bodies with nontrivial result shaping -/

def JsonList.toList : JsonList → List Json
  | .nil => []
  | .cons x t => x :: JsonList.toList t

/-- `data.get("results", []) or []` (line 98).  `.get` on a non-dict raises
`AttributeError`. -/
def getResultsOrEmptyList (data : Json) : Except String Json :=
  match data with
  | .obj fs =>
      let r := (fs.lookup "results").getD (jarr [])
      .ok (if r.truthy then r else jarr [])
  | _ => .error "AttributeError: object has no attribute get"

/-- Python iteration over a parsed JSON value, as a comprehension performs it:
lists yield elements, dicts yield keys, strings yield 1-character strings,
scalars raise `TypeError`. -/
def iterValues : Json → Except String (List Json)
  | .arr l => .ok l.toList
  | .obj fs => .ok (fs.keys.map Json.str)
  | .str s => .ok (s.toList.map (fun c => Json.str (String.mk [c])))
  | _ => .error "TypeError: object is not iterable"

/-- The `closes` comprehension of `stock_price` (lines 99-108): keep dict
points, take `point.get("t", 0) / 1000` through `fromtimestamp` (which
raises for instants outside datetime's range — uncaught here) and
`strftime("%Y-%m-%d")`, pair with `point.get("c")`.  A Python bool is an
int, so a bool `t` divides like `0`/`1`. -/
def stockPriceCloses : List Json → Except String (List (String × Json))
  | [] => .ok []
  | p :: rest =>
    match p with
    | .obj fs =>
        (match (fs.lookup "t").getD (.num 0) with
        | .num n => do
            let dt ← fromtimestampPy (n.fdiv 1000)
            let tl ← stockPriceCloses rest
            .ok ((fmtYMD dt, (fs.lookup "c").getD .null) :: tl)
        | .bool b => do
            let dt ← fromtimestampPy ((if b then (1 : Int) else 0).fdiv 1000)
            let tl ← stockPriceCloses rest
            .ok ((fmtYMD dt, (fs.lookup "c").getD .null) :: tl)
        | _ => .error "TypeError: unsupported operand type(s) for /")
    | _ => stockPriceCloses rest

/-- Python `repr` of one element of `closes`: a dict literal with the keys
`date` and `close` in insertion order. -/
def reprCloseItem (it : String × Json) : String :=
  "\x7b\x27date\x27: \x27" ++ pyReprEscape it.1 ++ "\x27, \x27close\x27: " ++
    it.2.pyRepr ++ "\x7d"

/-- Python `str(closes)` for the list of close records. -/
def reprCloses (l : List (String × Json)) : String :=
  "[" ++ String.intercalate ", " (l.map reprCloseItem) ++ "]"

/-- Body of `stock_price` (lines 81-110).  There is no `try`/`except` here:
any exception propagates to the dispatcher's caller. -/
def stock_price_body (api_key : Option String) (u : Upstream) (stock_ticker : String) :
    Except String String := do
  let data ← polygonGet api_key u
  let results ← getResultsOrEmptyList data
  let points ← iterValues results
  let closes ← stockPriceCloses points
  .ok ("Stock price over the last month for " ++ stock_ticker ++ ": " ++ reprCloses closes)

/-- Body of `stock_info` (lines 113-127); also without `try`/`except`. -/
def stock_info_body (api_key : Option String) (u : Upstream) (stock_ticker : String) :
    Except String String := do
  let data ← polygonGet api_key u
  let info ← match data with
    | .obj fs => Except.ok ((fs.lookup "results").getD (jobj []))
    | _ => Except.error "AttributeError: object has no attribute get"
  .ok ("Background information for " ++ stock_ticker ++ ": " ++ info.pyStr)

/-- Body of `income_statement` (lines 130-150); also without `try`/`except`.
`results[0]` on a nonempty string yields its first character; on a dict it
raises. -/
def income_statement_body (api_key : Option String) (u : Upstream) (stock_ticker : String) :
    Except String String := do
  let fin ← polygonGet api_key u
  let results0 ← match fin with
    | .obj fs => Except.ok ((fs.lookup "results").getD .null)
    | _ => Except.error "AttributeError: object has no attribute get"
  let results := if results0.truthy then results0 else jarr []
  let latest ← (if results.truthy then
      match results with
      | .arr (.cons x _) => Except.ok x
      | .str s => Except.ok (Json.str (String.mk (s.toList.take 1)))
      | _ => Except.error "TypeError: object is not subscriptable"
    else Except.ok (jobj []))
  .ok ("Income statement for " ++ stock_ticker ++ ": " ++ latest.pyStr)

/-- The `{"error": ...}` payload of `get_ticker_exchange_info` (line 830);
note it interpolates the ticker as supplied, not upper-cased. -/
def noDataJson (ticker : String) : Json :=
  jobj [("error", .str ("No data found for ticker " ++ ticker))]

/-- The `exchange_coverage` literal of `get_ticker_exchange_info`
(lines 809-826). -/
def exchange_coverage_json (ticker : String) (info : JsonObj) : Json :=
  jobj [
    ("ticker", .str (pyUpper ticker)),
    ("primary_exchange", (info.lookup "primary_exchange").getD .null),
    ("market", (info.lookup "market").getD .null),
    ("locale", (info.lookup "locale").getD .null),
    ("type", (info.lookup "type").getD .null),
    ("active", (info.lookup "active").getD .null),
    ("currency_name", (info.lookup "currency_name").getD .null),
    ("cik", (info.lookup "cik").getD .null),
    ("composite_figi", (info.lookup "composite_figi").getD .null),
    ("share_class_figi", (info.lookup "share_class_figi").getD .null),
    ("polygon_coverage", polygon_coverage_json)]

/-- The `if "results" in data and data["results"]:` restructure of
`get_ticker_exchange_info` (lines 805-830), else the `{"error": ...}`
document. -/
def ticker_exchange_shape (ticker : String) (data : Json) : Except String String :=
  match data with
  | .obj fs =>
    match fs.lookup "results" with
    | some r =>
      if r.truthy then
        match r with
        | .obj info => .ok (Json.dumps (exchange_coverage_json ticker info) 0)
        | _ => .error "AttributeError: object has no attribute get"
      else .ok (Json.dumps (noDataJson ticker) 0)
    | none => .ok (Json.dumps (noDataJson ticker) 0)
  | .arr l =>
      if l.containsStr "results" then .error "TypeError: list indices must be integers"
      else .ok (Json.dumps (noDataJson ticker) 0)
  | .str s =>
      if strContains s "results" then .error "TypeError: string indices must be integers"
      else .ok (Json.dumps (noDataJson ticker) 0)
  | _ => .error "TypeError: argument is not iterable"

/-- Body inside the `try` of `get_ticker_exchange_info` (lines 800-830). -/
def get_ticker_exchange_info_body (api_key : Option String) (u : Upstream)
    (ticker : String) : Except String String := do
  let data ← polygonGet api_key u
  ticker_exchange_shape ticker data

/-! ### Market-session augmentation of `get_intraday_aggregates`
(lines 695-702) -/

/-- Augment one bar: when the bar is a dict with a numeric `"t"`, compute
`utc_time = fromtimestamp(t / 1000)` (raising `ValueError` outside
datetime's range), `et_time = utc_time + timedelta(hours=-5)` — the civil
time of the instant `t / 1000 - 5 * 3600`, raising `OverflowError` if that
falls below `datetime.min` — then assign `market_session` and `et_time`
into the dict.  A pre-existing key is overwritten in place. -/
def augmentBar (bar : Json) : Except String Json :=
  match bar with
  | .obj fs =>
    match fs.lookup "t" with
    | some (.num n) => do
        let _utc_time ← fromtimestampPy (n.fdiv 1000)
        let et_time ← timedeltaHoursPy (n.fdiv 1000) (-5)
        .ok (.obj ((fs.set "market_session"
          (.str (_determine_market_session et_time.hour et_time.minute))).set "et_time"
          (.str (fmtYMDHMS et_time ++ " ET"))))
    | some (.bool b) => do
        let _utc_time ← fromtimestampPy ((if b then (1 : Int) else 0).fdiv 1000)
        let et_time ← timedeltaHoursPy ((if b then (1 : Int) else 0).fdiv 1000) (-5)
        .ok (.obj ((fs.set "market_session"
          (.str (_determine_market_session et_time.hour et_time.minute))).set "et_time"
          (.str (fmtYMDHMS et_time ++ " ET"))))
    | some _ => .error "TypeError: unsupported operand type(s) for /"
    | none => .ok bar
  | .str s =>
      if strContains s "t" then .error "TypeError: string indices must be integers"
      else .ok bar
  | .arr l =>
      if l.containsStr "t" then .error "TypeError: list indices must be integers"
      else .ok bar
  | _ => .error "TypeError: argument is not iterable"

def augmentBars : JsonList → Except String JsonList
  | .nil => .ok .nil
  | .cons x t => do
      let x' ← augmentBar x
      let t' ← augmentBars t
      .ok (.cons x' t')

/-- The `if "results" in data and data["results"]: for result in
data["results"]: ...` pass of `get_intraday_aggregates` (lines 696-702),
mutating the bars in place. -/
def intradayAugment (data : Json) : Except String Json :=
  match data with
  | .obj fs =>
    match fs.lookup "results" with
    | some r =>
      if r.truthy then
        match r with
        | .arr l => do
            let l' ← augmentBars l
            .ok (.obj (fs.set "results" (.arr l')))
        | .obj o =>
            if o.keys.any (fun k => strContains k "t") then
              .error "TypeError: string indices must be integers"
            else .ok data
        | .str s =>
            if strContains s "t" then .error "TypeError: string indices must be integers"
            else .ok data
        | _ => .error "TypeError: object is not iterable"
      else .ok data
    | none => .ok data
  | .arr l =>
      if l.containsStr "results" then .error "TypeError: list indices must be integers"
      else .ok data
  | .str s =>
      if strContains s "results" then .error "TypeError: string indices must be integers"
      else .ok data
  | _ => .error "TypeError: argument is not iterable"

/-- The four-field `result` dict of `convert_utc_to_et` (lines 565-570) for
an in-range timestamp: `et_dt = utc_dt + timedelta(hours=-5)` is the civil
datetime of the instant `utc_timestamp - 5 * 3600`. -/
def convert_utc_to_et_document (utc_timestamp : Int) : Json :=
  let utc_dt := fromtimestamp utc_timestamp
  let et_dt := fromtimestamp (utc_timestamp - 5 * 3600)
  jobj [
    ("utc_timestamp", .num utc_timestamp),
    ("utc_datetime", .str (fmtYMDHMS utc_dt ++ " UTC")),
    ("et_datetime", .str (fmtYMDHMS et_dt ++ " ET")),
    ("market_session", .str (_determine_market_session et_dt.hour et_dt.minute))]

/-- Body inside the `try` of `convert_utc_to_et` (lines 554-572):
`fromtimestamp` raises `ValueError` for timestamps outside datetime's year
range and the `timedelta(hours=-5)` addition raises `OverflowError` below
`datetime.min`; both are caught by the tool's `except` and become
`"Error: ..."` returns.  Otherwise the four-field dict is built. -/
def convert_utc_to_et_body (utc_timestamp : Int) : Except String Json := do
  let utc_dt ← fromtimestampPy utc_timestamp
  let et_dt ← timedeltaHoursPy utc_timestamp (-5)
  .ok (jobj [
    ("utc_timestamp", .num utc_timestamp),
    ("utc_datetime", .str (fmtYMDHMS utc_dt ++ " UTC")),
    ("et_datetime", .str (fmtYMDHMS et_dt ++ " ET")),
    ("market_session", .str (_determine_market_session et_dt.hour et_dt.minute))])

/-! ### The registered tools and the dispatcher -/

/-- One invocation of a registered tool with its (typed, required) arguments.
The constructors are the 31 `@mcp.tool()` functions of `server.py` in source
order. -/
inductive ToolCall where
  | stock_price : String → ToolCall
  | stock_info : String → ToolCall
  | income_statement : String → ToolCall
  | get_aggregates : AggArgs → ToolCall
  | get_previous_close : PrevCloseArgs → ToolCall
  | get_last_trade : String → ToolCall
  | get_last_quote : String → ToolCall
  | get_snapshot_ticker : String → String → ToolCall
  | get_market_status : ToolCall
  | search_tickers : SearchTickersArgs → ToolCall
  | get_ticker_news : NewsArgs → ToolCall
  | get_dividends : DividendsArgs → ToolCall
  | get_splits : SplitsArgs → ToolCall
  | get_treasury_yields : TreasuryArgs → ToolCall
  | get_market_hours_info : ToolCall
  | convert_utc_to_et : Int → ToolCall
  | get_exchange_info : ToolCall
  | get_intraday_aggregates : IntradayArgs → ToolCall
  | get_sip_info : ToolCall
  | get_market_data_coverage : ToolCall
  | get_ticker_exchange_info : String → ToolCall
  | get_earnings : EarningsArgs → ToolCall
  | get_analyst_ratings : AnalystArgs → ToolCall
  | get_short_interest : ShortInterestArgs → ToolCall
  | get_options_contracts : OptionsContractsArgs → ToolCall
  | get_options_snapshot : OptionsSnapshotArgs → ToolCall
  | get_balance_sheet : BalanceSheetArgs → ToolCall
  | get_cash_flow : CashFlowArgs → ToolCall
  | get_market_gainers_losers : GainersArgs → ToolCall
  | get_market_holidays : ToolCall
  | get_inflation_data : InflationArgs → ToolCall

/-- The registry name of the tool being called. -/
def toolName : ToolCall → String
  | .stock_price _ => "stock_price"
  | .stock_info _ => "stock_info"
  | .income_statement _ => "income_statement"
  | .get_aggregates _ => "get_aggregates"
  | .get_previous_close _ => "get_previous_close"
  | .get_last_trade _ => "get_last_trade"
  | .get_last_quote _ => "get_last_quote"
  | .get_snapshot_ticker _ _ => "get_snapshot_ticker"
  | .get_market_status => "get_market_status"
  | .search_tickers _ => "search_tickers"
  | .get_ticker_news _ => "get_ticker_news"
  | .get_dividends _ => "get_dividends"
  | .get_splits _ => "get_splits"
  | .get_treasury_yields _ => "get_treasury_yields"
  | .get_market_hours_info => "get_market_hours_info"
  | .convert_utc_to_et _ => "convert_utc_to_et"
  | .get_exchange_info => "get_exchange_info"
  | .get_intraday_aggregates _ => "get_intraday_aggregates"
  | .get_sip_info => "get_sip_info"
  | .get_market_data_coverage => "get_market_data_coverage"
  | .get_ticker_exchange_info _ => "get_ticker_exchange_info"
  | .get_earnings _ => "get_earnings"
  | .get_analyst_ratings _ => "get_analyst_ratings"
  | .get_short_interest _ => "get_short_interest"
  | .get_options_contracts _ => "get_options_contracts"
  | .get_options_snapshot _ => "get_options_snapshot"
  | .get_balance_sheet _ => "get_balance_sheet"
  | .get_cash_flow _ => "get_cash_flow"
  | .get_market_gainers_losers _ => "get_market_gainers_losers"
  | .get_market_holidays => "get_market_holidays"
  | .get_inflation_data _ => "get_inflation_data"

/-- Whether the tool performs an upstream `_polygon_get` call. -/
def usesUpstream : ToolCall → Bool
  | .get_market_hours_info => false
  | .convert_utc_to_et _ => false
  | .get_exchange_info => false
  | .get_sip_info => false
  | .get_market_data_coverage => false
  | _ => true

/-- Invoke a tool call against the given credential environment and stubbed
upstream.  `Except.error` is an exception escaping the tool function;
`Except.ok` is its returned string.  Tools whose body is wrapped in
`try: ... except Exception as e: return f"Error: {str(e)}"` appear under
`pyTry`; `stock_price`, `stock_info` and `income_statement` (lines 81-150)
have no such wrapper. -/
def invoke (api_key : Option String) (u : Upstream) : ToolCall → Except String String
  | .stock_price t => stock_price_body api_key u t
  | .stock_info t => stock_info_body api_key u t
  | .income_statement t => income_statement_body api_key u t
  | .get_aggregates _ => pyTry (do
      let data ← polygonGet api_key u
      .ok (Json.dumps data 0))
  | .get_previous_close _ => pyTry (do
      let data ← polygonGet api_key u
      .ok (Json.dumps data 0))
  | .get_last_trade _ => pyTry (do
      let data ← polygonGet api_key u
      .ok (Json.dumps data 0))
  | .get_last_quote _ => pyTry (do
      let data ← polygonGet api_key u
      .ok (Json.dumps data 0))
  | .get_snapshot_ticker _ _ => pyTry (do
      let data ← polygonGet api_key u
      .ok (Json.dumps data 0))
  | .get_market_status => pyTry (do
      let data ← polygonGet api_key u
      .ok (Json.dumps data 0))
  | .search_tickers _ => pyTry (do
      let data ← polygonGet api_key u
      .ok (Json.dumps data 0))
  | .get_ticker_news _ => pyTry (do
      let data ← polygonGet api_key u
      .ok (Json.dumps data 0))
  | .get_dividends _ => pyTry (do
      let data ← polygonGet api_key u
      .ok (Json.dumps data 0))
  | .get_splits _ => pyTry (do
      let data ← polygonGet api_key u
      .ok (Json.dumps data 0))
  | .get_treasury_yields _ => pyTry (do
      let data ← polygonGet api_key u
      .ok (Json.dumps data 0))
  | .get_market_hours_info => .ok (Json.dumps market_hours_json 0)
  | .convert_utc_to_et ts => pyTry (do
      let r ← convert_utc_to_et_body ts
      .ok (Json.dumps r 0))
  | .get_exchange_info => .ok (Json.dumps exchanges_json 0)
  | .get_intraday_aggregates _ => pyTry (do
      let data ← polygonGet api_key u
      let data' ← intradayAugment data
      .ok (Json.dumps data' 0))
  | .get_sip_info => .ok (Json.dumps sip_info_json 0)
  | .get_market_data_coverage => .ok (Json.dumps coverage_info_json 0)
  | .get_ticker_exchange_info t => pyTry (get_ticker_exchange_info_body api_key u t)
  | .get_earnings _ => pyTry (do
      let data ← polygonGet api_key u
      .ok (Json.dumps data 0))
  | .get_analyst_ratings _ => pyTry (do
      let data ← polygonGet api_key u
      .ok (Json.dumps data 0))
  | .get_short_interest _ => pyTry (do
      let data ← polygonGet api_key u
      .ok (Json.dumps data 0))
  | .get_options_contracts _ => pyTry (do
      let data ← polygonGet api_key u
      .ok (Json.dumps data 0))
  | .get_options_snapshot _ => pyTry (do
      let data ← polygonGet api_key u
      .ok (Json.dumps data 0))
  | .get_balance_sheet _ => pyTry (do
      let data ← polygonGet api_key u
      .ok (Json.dumps data 0))
  | .get_cash_flow _ => pyTry (do
      let data ← polygonGet api_key u
      .ok (Json.dumps data 0))
  | .get_market_gainers_losers _ => pyTry (do
      let data ← polygonGet api_key u
      .ok (Json.dumps data 0))
  | .get_market_holidays => pyTry (do
      let data ← polygonGet api_key u
      .ok (Json.dumps data 0))
  | .get_inflation_data _ => pyTry (do
      let data ← polygonGet api_key u
      .ok (Json.dumps data 0))

/-- The tools that return `json.dumps(data, indent=2)` of the upstream body
with no reshaping at all. -/
def passThroughNames : List String :=
  ["get_aggregates", "get_previous_close", "get_last_trade", "get_last_quote",
   "get_snapshot_ticker", "get_market_status", "search_tickers", "get_ticker_news",
   "get_dividends", "get_splits", "get_treasury_yields", "get_earnings",
   "get_analyst_ratings", "get_short_interest", "get_options_contracts",
   "get_options_snapshot", "get_balance_sheet", "get_cash_flow",
   "get_market_gainers_losers", "get_market_holidays", "get_inflation_data"]

/-! ### Module top level (registration order, lines 1-1170)

The decorators `@mcp.tool()` register a tool when the `def` statement
executes.  The `if __name__ == "__main__": mcp.run(...)` block sits at
lines 495-506, between the first fourteen tool definitions and the remaining
seventeen, so when the file runs as a script the server starts serving with
only the tools defined above it. -/

inductive TopLevel where
  | defPrompt : String → TopLevel
  | defResource : String → TopLevel
  | defTool : String → TopLevel
  | helper : TopLevel
  | mainGuard : TopLevel

/-- The statements of `server.py` in source order (helpers collapsed). -/
def serverModule : List TopLevel :=
  [.helper, .defPrompt "stock_summary", .defResource "tickers://search/\x7bstock_name\x7d",
   .helper, .helper, .helper,
   .defTool "stock_price", .defTool "stock_info", .defTool "income_statement",
   .defTool "get_aggregates", .defTool "get_previous_close", .defTool "get_last_trade",
   .defTool "get_last_quote", .defTool "get_snapshot_ticker", .defTool "get_market_status",
   .defTool "search_tickers", .defTool "get_ticker_news", .defTool "get_dividends",
   .defTool "get_splits", .defTool "get_treasury_yields",
   .mainGuard,
   .defTool "get_market_hours_info", .defTool "convert_utc_to_et",
   .helper,
   .defTool "get_exchange_info", .defTool "get_intraday_aggregates",
   .defTool "get_sip_info", .defTool "get_market_data_coverage",
   .defTool "get_ticker_exchange_info", .defTool "get_earnings",
   .defTool "get_analyst_ratings", .defTool "get_short_interest",
   .defTool "get_options_contracts", .defTool "get_options_snapshot",
   .defTool "get_balance_sheet", .defTool "get_cash_flow",
   .defTool "get_market_gainers_losers", .defTool "get_market_holidays",
   .defTool "get_inflation_data"]

/-- Tools registered before `mcp.run(...)` begins serving (statements before
the `__main__` guard). -/
def toolsRegisteredBeforeServe : List TopLevel → List String
  | [] => []
  | .mainGuard :: _ => []
  | .defTool n :: rest => n :: toolsRegisteredBeforeServe rest
  | _ :: rest => toolsRegisteredBeforeServe rest

/-- All tools the module defines. -/
def allToolDefs : List TopLevel → List String
  | [] => []
  | .defTool n :: rest => n :: allToolDefs rest
  | _ :: rest => allToolDefs rest

/-- Lookup on a JSON value known to be an object. -/
def jsonLookup (j : Json) (k : String) : Option Json :=
  match j with
  | .obj o => o.lookup k
  | _ => none

/-- Upstream behaviours that make `_polygon_get` raise once the credential is
present: a network error, a status `raise_for_status()` rejects, or an
undecodable JSON body. -/
def upstreamFails : Upstream → Prop
  | .netError _ => True
  | .resp status body => (400 ≤ status ∧ status < 600) ∨ body = none

/-! ### Lemmas about the query-dict model -/

theorem pkeys_dictSet (p : Params) (k : String) (v : QVal) :
    pkeys (dictSet p k v) = if k ∈ pkeys p then pkeys p else pkeys p ++ [k] := by
  unfold dictSet pkeys
  by_cases h : k ∈ p.map Prod.fst
  · rw [if_pos h, if_pos h, List.map_map]
    refine List.map_congr_left ?_
    intro q _
    by_cases hq : q.1 = k <;> simp [hq]
  · rw [if_neg h, if_neg h, List.map_append]
    rfl

theorem mem_pkeys_dictSet (a : String) (p : Params) (k : String) (v : QVal) :
    a ∈ pkeys (dictSet p k v) ↔ a ∈ pkeys p ∨ a = k := by
  rw [pkeys_dictSet]
  by_cases h : k ∈ pkeys p
  · simp only [h, if_pos]
    constructor
    · exact Or.inl
    · rintro (ha | rfl) <;> [exact ha; exact h]
  · simp [h]

theorem dictSet_of_not_mem (p : Params) (k : String) (v : QVal) (h : k ∉ pkeys p) :
    dictSet p k v = p ++ [(k, v)] := by
  simp [dictSet, h]

theorem mem_pkeys_applyIns (a : String) (p : Params) (i : OptIns) :
    a ∈ pkeys (applyIns p i) ↔ a ∈ pkeys p ∨ (a = insKey i ∧ insActive i = true) := by
  cases i with
  | ifTruthyStr k v =>
      cases v with
      | none => simp [applyIns, insKey, insActive, truthyOptStr]
      | some s =>
          by_cases hs : s = ""
          · simp [applyIns, insKey, insActive, truthyOptStr, hs]
          · simp [applyIns, insKey, insActive, truthyOptStr, hs, mem_pkeys_dictSet]
  | ifTruthyStrUpper k v =>
      cases v with
      | none => simp [applyIns, insKey, insActive, truthyOptStr]
      | some s =>
          by_cases hs : s = ""
          · simp [applyIns, insKey, insActive, truthyOptStr, hs]
          · simp [applyIns, insKey, insActive, truthyOptStr, hs, mem_pkeys_dictSet]
  | ifTruthyInt k v =>
      cases v with
      | none => simp [applyIns, insKey, insActive, truthyOptInt]
      | some n =>
          by_cases hn : n = 0
          · simp [applyIns, insKey, insActive, truthyOptInt, hn]
          · simp [applyIns, insKey, insActive, truthyOptInt, hn, mem_pkeys_dictSet]
  | ifTruthyFloat k v =>
      cases v with
      | none => simp [applyIns, insKey, insActive, truthyOptFloat]
      | some x =>
          by_cases hx : x = 0
          · simp [applyIns, insKey, insActive, truthyOptFloat, hx]
          · simp [applyIns, insKey, insActive, truthyOptFloat, hx, mem_pkeys_dictSet]
  | ifTruthyFlag k v =>
      cases v <;> simp [applyIns, insKey, insActive, mem_pkeys_dictSet]
  | ifNotNoneBool k v =>
      cases v <;> simp [applyIns, insKey, insActive, mem_pkeys_dictSet]

theorem mem_pkeys_buildParams (a : String) (l : List OptIns) :
    ∀ init : Params, a ∈ pkeys (buildParams init l) ↔
      a ∈ pkeys init ∨ ∃ i, i ∈ l ∧ a = insKey i ∧ insActive i = true := by
  induction l with
  | nil => intro init; simp [buildParams]
  | cons i t ih =>
      intro init
      have step : buildParams init (i :: t) = buildParams (applyIns init i) t := rfl
      rw [step, ih, mem_pkeys_applyIns]
      constructor
      · rintro ((h | h) | ⟨j, hj, hh⟩)
        · exact Or.inl h
        · exact Or.inr ⟨i, List.mem_cons_self i t, h⟩
        · exact Or.inr ⟨j, List.mem_cons_of_mem i hj, hh⟩
      · rintro (h | ⟨j, hj, hh⟩)
        · exact Or.inl (Or.inl h)
        · rcases List.mem_cons.mp hj with rfl | hj'
          · exact Or.inl (Or.inr hh)
          · exact Or.inr ⟨j, hj', hh⟩

theorem not_mem_pkeys_buildParams (a : String) (init : Params) (l : List OptIns)
    (h1 : a ∉ pkeys init) (h2 : ∀ i ∈ l, a = insKey i → insActive i = false) :
    a ∉ pkeys (buildParams init l) := by
  rw [mem_pkeys_buildParams]
  rintro (h | ⟨i, hi, he, hact⟩)
  · exact h1 h
  · rw [h2 i hi he] at hact
    exact Bool.false_ne_true hact

/-! ### Lemmas about inactive insertions (falsy argument values) -/

theorem applyIns_str_none (p : Params) (k : String) : applyIns p (.ifTruthyStr k none) = p := rfl

theorem applyIns_str_empty (p : Params) (k : String) :
    applyIns p (.ifTruthyStr k (some "")) = p := rfl

theorem applyIns_strUpper_none (p : Params) (k : String) :
    applyIns p (.ifTruthyStrUpper k none) = p := rfl

theorem applyIns_strUpper_empty (p : Params) (k : String) :
    applyIns p (.ifTruthyStrUpper k (some "")) = p := rfl

theorem applyIns_int_none (p : Params) (k : String) : applyIns p (.ifTruthyInt k none) = p := rfl

theorem applyIns_int_zero (p : Params) (k : String) :
    applyIns p (.ifTruthyInt k (some 0)) = p := rfl

theorem applyIns_float_none (p : Params) (k : String) :
    applyIns p (.ifTruthyFloat k none) = p := rfl

theorem applyIns_float_zero (p : Params) (k : String) :
    applyIns p (.ifTruthyFloat k (some 0)) = p := by
  simp [applyIns]

theorem applyIns_flag_false (p : Params) (k : String) :
    applyIns p (.ifTruthyFlag k false) = p := rfl

theorem applyIns_nnbool_none (p : Params) (k : String) :
    applyIns p (.ifNotNoneBool k none) = p := rfl

theorem applyIns_nnbool_some (p : Params) (k : String) (b : Bool) :
    applyIns p (.ifNotNoneBool k (some b)) = dictSet p k (.s (pyBoolStr b)) := rfl

/-! ### Lemmas about the dispatcher -/

theorem pyTry_ok (r : Except String String) : ∃ s, pyTry r = .ok s := by
  cases r with
  | error m => exact ⟨"Error: " ++ m, rfl⟩
  | ok s => exact ⟨s, rfl⟩

theorem polygonGet_error_of (api_key : Option String) (u : Upstream)
    (h : api_key = none ∨ upstreamFails u) : ∃ m, polygonGet api_key u = .error m := by
  cases api_key with
  | none => exact ⟨_, rfl⟩
  | some key =>
    cases u with
    | netError m => exact ⟨m, rfl⟩
    | resp status body =>
        rcases h with h | h
        · exact absurd h (by simp)
        · by_cases hst : 400 ≤ status ∧ status < 600
          · exact ⟨"HTTP error " ++ toString status, by simp [polygonGet, hst]⟩
          · rcases h with h | h
            · exact absurd h hst
            · exact ⟨"Expecting value: line 1 column 1 (char 0)",
                by simp [polygonGet, hst, h]⟩

/-! ### Lemmas about `JsonObj.set` -/

theorem JsonObj.lookup_set : ∀ (o : JsonObj) (k k' : String) (v : Json),
    (o.set k v).lookup k' = if k' = k then some v else o.lookup k'
  | .nil, k, k', v => by
      by_cases h : k' = k
      · simp [JsonObj.set, JsonObj.lookup, h]
      · have h2 : ¬ k = k' := fun hh => h hh.symm
        simp [JsonObj.set, JsonObj.lookup, h, h2]
  | .cons a b t, k, k', v => by
      by_cases h1 : a = k
      · subst h1
        by_cases h2 : k' = a
        · subst h2; simp [JsonObj.set, JsonObj.lookup]
        · have h3 : ¬ a = k' := fun hh => h2 hh.symm
          simp [JsonObj.set, JsonObj.lookup, h2, h3]
      · by_cases h2 : a = k'
        · subst h2
          simp [JsonObj.set, JsonObj.lookup, h1]
        · simp [JsonObj.set, JsonObj.lookup, h1, h2, JsonObj.lookup_set t k k' v]

theorem JsonObj.mem_keys_set : ∀ (o : JsonObj) (k : String) (v : Json) (k' : String),
    k' ∈ (o.set k v).keys ↔ k' ∈ o.keys ∨ k' = k
  | .nil, k, v, k' => by simp [JsonObj.set, JsonObj.keys]
  | .cons a b t, k, v, k' => by
      by_cases h1 : a = k
      · subst h1
        simp only [JsonObj.set, if_pos rfl, JsonObj.keys, List.mem_cons]
        constructor
        · rintro (rfl | h)
          · simp
          · simp [h]
        · rintro ((rfl | h) | rfl)
          · simp
          · simp [h]
          · simp
      · simp only [JsonObj.set, if_neg h1, JsonObj.keys, List.mem_cons,
          JsonObj.mem_keys_set t k v k']
        tauto

/-! ### Reduction lemmas for `Except` bind -/

theorem except_bind_error {α β : Type} (m : String) (f : α → Except String β) :
    (Except.error m >>= f) = Except.error m := rfl

theorem except_bind_ok {α β : Type} (a : α) (f : α → Except String β) :
    (Except.ok a >>= f) = f a := rfl

theorem fromtimestampPy_in_range (ts : Int) (h1 : datetimeMinTs ≤ ts)
    (h2 : ts ≤ datetimeMaxTs) : fromtimestampPy ts = .ok (fromtimestamp ts) := by
  unfold fromtimestampPy
  rw [if_pos ⟨h1, h2⟩]

theorem timedeltaHoursPy_in_range (ts h : Int) (h1 : datetimeMinTs ≤ ts + h * 3600)
    (h2 : ts + h * 3600 ≤ datetimeMaxTs) :
    timedeltaHoursPy ts h = .ok (fromtimestamp (ts + h * 3600)) := by
  unfold timedeltaHoursPy
  rw [if_pos ⟨h1, h2⟩]

/-! ## Claim theorems -/

/-- C5: the market-session classifier maps minute-of-day `m = hour*60 +
minute` to `pre_market` on `[240,570)`, `regular_market` on `[570,960)`,
`after_hours` on `[960,1200)` and `market_closed` otherwise; in particular
`classify(5,0) = pre_market`, `classify(10,0) = regular_market`,
`classify(17,0) = after_hours`, `classify(22,0) = market_closed`, and the
boundary `classify(9,30) = regular_market`. -/
theorem C5_market_session_classifier (hour minute : Nat) :
    (240 ≤ hour * 60 + minute → hour * 60 + minute < 570 →
      _determine_market_session hour minute = "pre_market") ∧
    (570 ≤ hour * 60 + minute → hour * 60 + minute < 960 →
      _determine_market_session hour minute = "regular_market") ∧
    (960 ≤ hour * 60 + minute → hour * 60 + minute < 1200 →
      _determine_market_session hour minute = "after_hours") ∧
    (hour * 60 + minute < 240 ∨ 1200 ≤ hour * 60 + minute →
      _determine_market_session hour minute = "market_closed") ∧
    _determine_market_session 5 0 = "pre_market" ∧
    _determine_market_session 10 0 = "regular_market" ∧
    _determine_market_session 17 0 = "after_hours" ∧
    _determine_market_session 22 0 = "market_closed" ∧
    _determine_market_session 9 30 = "regular_market" := by
  refine ⟨?_, ?_, ?_, ?_, by decide, by decide, by decide, by decide, by decide⟩ <;>
    · intro ha
      first
        | (intro hb
           simp only [_determine_market_session]
           split_ifs with h1 h2 h3 <;> first | rfl | omega)
        | (simp only [_determine_market_session]
           split_ifs with h1 h2 h3 <;> first | rfl | (rcases ha with ha | ha <;> omega))

/-- C5 witness: the boundary case 9:30 through the interval part of the
theorem. -/
theorem C5_witness : _determine_market_session 9 30 = "regular_market" :=
  (C5_market_session_classifier 9 30).2.1 (by norm_num) (by norm_num)

/-- C2: the claim says the full set of tools is registered before the server
begins serving; in the source the `__main__` guard that calls `mcp.run(...)`
precedes seventeen tool definitions, so e.g. `get_market_hours_info` is a
tool of the module that is not registered when serving starts. -/
theorem C2_tools_defined_after_serving :
    "get_market_hours_info" ∈ allToolDefs serverModule ∧
    "get_market_hours_info" ∉ toolsRegisteredBeforeServe serverModule ∧
    toolsRegisteredBeforeServe serverModule ≠ allToolDefs serverModule ∧
    (toolsRegisteredBeforeServe serverModule).length = 14 ∧
    (allToolDefs serverModule).length = 31 := by
  refine ⟨by decide, by decide, by decide, by decide, by decide⟩

/-- C4 (amended): for the `from_date`/`to_date` arguments of `get_aggregates`
and `get_intraday_aggregates`, a `datetime` or `date` value is normalized
with `strftime("%Y-%m-%d")` and builds the same path as the ISO string; an
epoch integer is interpolated verbatim, not normalized. -/
theorem C4_amended (ticker : String) (multiplier : Int) (timespan : String)
    (dt : DateTime) (pd : PyDate) (other : DateArg) :
    dateArgToStr (.datetime dt) = fmtYMD dt ∧
    dateArgToStr (.date pd) = fmtDateYMD pd ∧
    dateArgToStr (.int (dt.year)) = toString dt.year ∧
    get_aggregates_path ticker multiplier timespan (.datetime dt) other =
      get_aggregates_path ticker multiplier timespan (.str (fmtYMD dt)) other ∧
    get_aggregates_path ticker multiplier timespan other (.datetime dt) =
      get_aggregates_path ticker multiplier timespan other (.str (fmtYMD dt)) ∧
    get_aggregates_path ticker multiplier timespan (.date pd) other =
      get_aggregates_path ticker multiplier timespan (.str (fmtDateYMD pd)) other ∧
    get_aggregates_path ticker multiplier timespan other (.date pd) =
      get_aggregates_path ticker multiplier timespan other (.str (fmtDateYMD pd)) ∧
    get_intraday_aggregates_path ticker multiplier timespan (.datetime dt) other =
      get_intraday_aggregates_path ticker multiplier timespan (.str (fmtYMD dt)) other ∧
    get_intraday_aggregates_path ticker multiplier timespan other (.datetime dt) =
      get_intraday_aggregates_path ticker multiplier timespan other (.str (fmtYMD dt)) ∧
    get_intraday_aggregates_path ticker multiplier timespan (.date pd) other =
      get_intraday_aggregates_path ticker multiplier timespan (.str (fmtDateYMD pd)) other ∧
    get_intraday_aggregates_path ticker multiplier timespan other (.date pd) =
      get_intraday_aggregates_path ticker multiplier timespan other (.str (fmtDateYMD pd)) :=
  ⟨rfl, rfl, rfl, rfl, rfl, rfl, rfl, rfl, rfl, rfl, rfl⟩

/-- C4 counterexample: `1704067200` is the epoch of 2024-01-01T00:00:00Z,
yet supplying it as `from_date` builds a different path from supplying the
equivalent ISO string, because ints are not normalized to `YYYY-MM-DD`. -/
theorem C4_counterexample :
    fromtimestamp 1704067200 = ⟨2024, 1, 1, 0, 0, 0⟩ ∧
    get_aggregates_path "AAPL" 1 "day" (.int 1704067200) (.str "2024-01-05") ≠
      get_aggregates_path "AAPL" 1 "day" (.str "2024-01-01") (.str "2024-01-05") := by
  constructor
  · decide
  · decide

/-- C7 (amended): no builder in the module ever supplies an `apiKey`
parameter, and whenever the mapping handed to `_polygon_get` lacks that key,
the credential is appended exactly once as the last key.  (If the mapping
already contained `apiKey`, the dict assignment would overwrite the value in
place, keeping its original position — see the counterexample.) -/
theorem C7_amended :
    (∀ (p : Params) (key : String), "apiKey" ∉ pkeys p →
       polygonGetParams p key = p ++ [("apiKey", QVal.s key)] ∧
       (pkeys (polygonGetParams p key)).count "apiKey" = 1 ∧
       (pkeys (polygonGetParams p key)).getLast? = some "apiKey") ∧
    (∀ a : AggArgs, "apiKey" ∉ pkeys (get_aggregates_params a)) ∧
    (∀ a : PrevCloseArgs, "apiKey" ∉ pkeys (get_previous_close_params a)) ∧
    (∀ a : SearchTickersArgs, "apiKey" ∉ pkeys (search_tickers_params a)) ∧
    (∀ a : NewsArgs, "apiKey" ∉ pkeys (get_ticker_news_params a)) ∧
    (∀ a : DividendsArgs, "apiKey" ∉ pkeys (get_dividends_params a)) ∧
    (∀ a : SplitsArgs, "apiKey" ∉ pkeys (get_splits_params a)) ∧
    (∀ a : TreasuryArgs, "apiKey" ∉ pkeys (get_treasury_yields_params a)) ∧
    (∀ a : IntradayArgs, "apiKey" ∉ pkeys (get_intraday_aggregates_params a)) ∧
    (∀ a : EarningsArgs, "apiKey" ∉ pkeys (get_earnings_params a)) ∧
    (∀ a : AnalystArgs, "apiKey" ∉ pkeys (get_analyst_ratings_params a)) ∧
    (∀ a : ShortInterestArgs, "apiKey" ∉ pkeys (get_short_interest_params a)) ∧
    (∀ a : OptionsContractsArgs, "apiKey" ∉ pkeys (get_options_contracts_params a)) ∧
    (∀ a : OptionsSnapshotArgs, "apiKey" ∉ pkeys (get_options_snapshot_params a)) ∧
    (∀ a : BalanceSheetArgs, "apiKey" ∉ pkeys (get_balance_sheet_params a)) ∧
    (∀ a : CashFlowArgs, "apiKey" ∉ pkeys (get_cash_flow_params a)) ∧
    (∀ a : GainersArgs, "apiKey" ∉ pkeys (get_market_gainers_losers_params a)) ∧
    (∀ a : InflationArgs, "apiKey" ∉ pkeys (get_inflation_data_params a)) ∧
    "apiKey" ∉ pkeys stock_price_params ∧
    (∀ t : String, "apiKey" ∉ pkeys (income_statement_params t)) := by
  refine ⟨?_, ?_, ?_, ?_, ?_, ?_, ?_, ?_, ?_, ?_, ?_, ?_, ?_, ?_, ?_, ?_, ?_, ?_,
    by decide, ?_⟩
  · intro p key h
    have hd : polygonGetParams p key = p ++ [("apiKey", QVal.s key)] :=
      dictSet_of_not_mem p "apiKey" (.s key) h
    refine ⟨hd, ?_, ?_⟩
    · rw [hd]
      have h0 : List.count "apiKey" (List.map Prod.fst p) = 0 := List.count_eq_zero.mpr h
      simp [pkeys, List.count_append, h0]
    · rw [hd]
      simp [pkeys]
  · intro a
    refine not_mem_pkeys_buildParams _ _ _ (by simp [pkeys]) ?_
    intro i hi he
    fin_cases hi <;> simp [insKey] at he
  · intro a
    refine not_mem_pkeys_buildParams _ _ _ (by simp [pkeys]) ?_
    intro i hi he
    fin_cases hi <;> simp [insKey] at he
  · intro a
    refine not_mem_pkeys_buildParams _ _ _ (by simp [pkeys]) ?_
    intro i hi he
    fin_cases hi <;> simp [insKey] at he
  · intro a
    refine not_mem_pkeys_buildParams _ _ _ (by simp [pkeys]) ?_
    intro i hi he
    fin_cases hi <;> simp [insKey] at he
  · intro a
    refine not_mem_pkeys_buildParams _ _ _ (by simp [pkeys]) ?_
    intro i hi he
    fin_cases hi <;> simp [insKey] at he
  · intro a
    refine not_mem_pkeys_buildParams _ _ _ (by simp [pkeys]) ?_
    intro i hi he
    fin_cases hi <;> simp [insKey] at he
  · intro a
    refine not_mem_pkeys_buildParams _ _ _ (by simp [pkeys]) ?_
    intro i hi he
    fin_cases hi <;> simp [insKey] at he
  · intro a
    refine not_mem_pkeys_buildParams _ _ _ (by simp [pkeys]) ?_
    intro i hi he
    fin_cases hi <;> simp [insKey] at he
  · intro a
    refine not_mem_pkeys_buildParams _ _ _ (by simp [pkeys]) ?_
    intro i hi he
    fin_cases hi <;> simp [insKey] at he
  · intro a
    refine not_mem_pkeys_buildParams _ _ _ (by simp [pkeys]) ?_
    intro i hi he
    fin_cases hi <;> simp [insKey] at he
  · intro a
    refine not_mem_pkeys_buildParams _ _ _ (by simp [pkeys]) ?_
    intro i hi he
    fin_cases hi <;> simp [insKey] at he
  · intro a
    refine not_mem_pkeys_buildParams _ _ _ (by simp [pkeys]) ?_
    intro i hi he
    fin_cases hi <;> simp [insKey] at he
  · intro a
    refine not_mem_pkeys_buildParams _ _ _ (by simp [pkeys]) ?_
    intro i hi he
    fin_cases hi <;> simp [insKey] at he
  · intro a
    refine not_mem_pkeys_buildParams _ _ _ (by simp [pkeys]) ?_
    intro i hi he
    fin_cases hi <;> simp [insKey] at he
  · intro a
    refine not_mem_pkeys_buildParams _ _ _ (by simp [pkeys]) ?_
    intro i hi he
    fin_cases hi <;> simp [insKey] at he
  · intro a
    refine not_mem_pkeys_buildParams _ _ _ (by simp [pkeys]) ?_
    intro i hi he
    fin_cases hi <;> simp [insKey] at he
  · intro a
    refine not_mem_pkeys_buildParams _ _ _ (by simp [pkeys]) ?_
    intro i hi he
    fin_cases hi <;> simp [insKey] at he
  · intro t
    simp [income_statement_params, pkeys]

/-- C7 witness: a builder mapping without `apiKey` gets the credential
appended last. -/
theorem C7_witness :
    (pkeys (polygonGetParams [("sort", QVal.s "asc")] "KEY")).getLast? = some "apiKey" :=
  (C7_amended.1 [("sort", QVal.s "asc")] "KEY" (by decide)).2.2

/-- C7 counterexample: when the builder mapping already contains an `apiKey`
entry, the credential assignment overwrites it in place, so `apiKey` is not
the last-inserted key, contradicting the claim's "as the last-inserted key
... including the case where the builder's mapping already contains an
apiKey entry". -/
theorem C7_counterexample :
    (pkeys (polygonGetParams [("apiKey", QVal.s "stale"), ("sort", QVal.s "asc")]
      "fresh")).getLast? ≠ some "apiKey" := by
  decide

/-- C10: when the upstream body for `get_ticker_exchange_info` is an object
without a truthy `"results"` field, the tool returns the pretty-printed
`{"error": "No data found for ticker <ticker>"}` document — a result that
does not carry the `"Error: "` prefix of the other failure paths. -/
theorem C10_no_results_document :
    (∀ (ticker key : String) (fs : JsonObj),
       ((fs.lookup "results").getD .null).truthy = false →
       invoke (some key) (.resp 200 (some (.obj fs))) (.get_ticker_exchange_info ticker) =
         .ok (Json.dumps (noDataJson ticker) 0)) ∧
    "Error: ".toList.isPrefixOf (Json.dumps (noDataJson "NVDA") 0).toList = false ∧
    "\x7b".toList.isPrefixOf (Json.dumps (noDataJson "NVDA") 0).toList = true := by
  refine ⟨?_, by decide, by decide⟩
  intro ticker key fs h
  have step : invoke (some key) (.resp 200 (some (.obj fs))) (.get_ticker_exchange_info ticker) =
      pyTry (ticker_exchange_shape ticker (.obj fs)) := rfl
  rw [step]
  cases hr : fs.lookup "results" with
  | none =>
      simp only [ticker_exchange_shape, hr]
      rfl
  | some r =>
      rw [hr] at h
      simp only [Option.getD_some] at h
      simp only [ticker_exchange_shape, hr, h]
      rfl

/-- C10 witness: a concrete upstream body with no `results` field. -/
theorem C10_witness :
    invoke (some "K") (.resp 200 (some (.obj (.cons "status" (.str "NOT_FOUND") .nil))))
      (.get_ticker_exchange_info "nvda") = .ok (Json.dumps (noDataJson "nvda") 0) :=
  C10_no_results_document.1 "nvda" "K" (.cons "status" (.str "NOT_FOUND") .nil) (by decide)

/-- C1 (amended): every registered tool except `stock_price`, `stock_info`
and `income_statement` wraps its body in `try`/`except` and therefore never
raises: its invocation always returns a string, and whenever the tool
contacts the upstream and the credential is missing or the upstream fails
(network error, status 400-599, or undecodable body — in particular a
stubbed HTTP 500), the returned string is `"Error: <message>"`.  The three
excepted tools have no `try`/`except` and propagate such exceptions outward
(see the counterexample). -/
theorem C1_amended (c : ToolCall)
    (hc : toolName c ∉ ["stock_price", "stock_info", "income_statement"])
    (api_key : Option String) (u : Upstream) :
    (∃ s, invoke api_key u c = .ok s) ∧
    ((api_key = none ∨ upstreamFails u) → usesUpstream c = true →
      ∃ m, invoke api_key u c = .ok ("Error: " ++ m)) := by
  cases c with
  | stock_price t => simp [toolName] at hc
  | stock_info t => simp [toolName] at hc
  | income_statement t => simp [toolName] at hc
  | get_market_hours_info =>
      exact ⟨⟨_, rfl⟩, fun _ hu => by simp [usesUpstream] at hu⟩
  | get_exchange_info =>
      exact ⟨⟨_, rfl⟩, fun _ hu => by simp [usesUpstream] at hu⟩
  | get_sip_info =>
      exact ⟨⟨_, rfl⟩, fun _ hu => by simp [usesUpstream] at hu⟩
  | get_market_data_coverage =>
      exact ⟨⟨_, rfl⟩, fun _ hu => by simp [usesUpstream] at hu⟩
  | convert_utc_to_et ts =>
      exact ⟨pyTry_ok _, fun _ hu => by simp [usesUpstream] at hu⟩
  | get_ticker_exchange_info t =>
      refine ⟨pyTry_ok _, ?_⟩
      intro hf _
      obtain ⟨m, hm⟩ := polygonGet_error_of api_key u hf
      exact ⟨m, by simp only [invoke, get_ticker_exchange_info_body, hm]; rfl⟩
  | get_intraday_aggregates a =>
      refine ⟨pyTry_ok _, ?_⟩
      intro hf _
      obtain ⟨m, hm⟩ := polygonGet_error_of api_key u hf
      exact ⟨m, by simp only [invoke, hm]; rfl⟩
  | get_aggregates a =>
      refine ⟨pyTry_ok _, ?_⟩
      intro hf _
      obtain ⟨m, hm⟩ := polygonGet_error_of api_key u hf
      exact ⟨m, by simp only [invoke, hm]; rfl⟩
  | get_previous_close a =>
      refine ⟨pyTry_ok _, ?_⟩
      intro hf _
      obtain ⟨m, hm⟩ := polygonGet_error_of api_key u hf
      exact ⟨m, by simp only [invoke, hm]; rfl⟩
  | get_last_trade t =>
      refine ⟨pyTry_ok _, ?_⟩
      intro hf _
      obtain ⟨m, hm⟩ := polygonGet_error_of api_key u hf
      exact ⟨m, by simp only [invoke, hm]; rfl⟩
  | get_last_quote t =>
      refine ⟨pyTry_ok _, ?_⟩
      intro hf _
      obtain ⟨m, hm⟩ := polygonGet_error_of api_key u hf
      exact ⟨m, by simp only [invoke, hm]; rfl⟩
  | get_snapshot_ticker mt t =>
      refine ⟨pyTry_ok _, ?_⟩
      intro hf _
      obtain ⟨m, hm⟩ := polygonGet_error_of api_key u hf
      exact ⟨m, by simp only [invoke, hm]; rfl⟩
  | get_market_status =>
      refine ⟨pyTry_ok _, ?_⟩
      intro hf _
      obtain ⟨m, hm⟩ := polygonGet_error_of api_key u hf
      exact ⟨m, by simp only [invoke, hm]; rfl⟩
  | search_tickers a =>
      refine ⟨pyTry_ok _, ?_⟩
      intro hf _
      obtain ⟨m, hm⟩ := polygonGet_error_of api_key u hf
      exact ⟨m, by simp only [invoke, hm]; rfl⟩
  | get_ticker_news a =>
      refine ⟨pyTry_ok _, ?_⟩
      intro hf _
      obtain ⟨m, hm⟩ := polygonGet_error_of api_key u hf
      exact ⟨m, by simp only [invoke, hm]; rfl⟩
  | get_dividends a =>
      refine ⟨pyTry_ok _, ?_⟩
      intro hf _
      obtain ⟨m, hm⟩ := polygonGet_error_of api_key u hf
      exact ⟨m, by simp only [invoke, hm]; rfl⟩
  | get_splits a =>
      refine ⟨pyTry_ok _, ?_⟩
      intro hf _
      obtain ⟨m, hm⟩ := polygonGet_error_of api_key u hf
      exact ⟨m, by simp only [invoke, hm]; rfl⟩
  | get_treasury_yields a =>
      refine ⟨pyTry_ok _, ?_⟩
      intro hf _
      obtain ⟨m, hm⟩ := polygonGet_error_of api_key u hf
      exact ⟨m, by simp only [invoke, hm]; rfl⟩
  | get_earnings a =>
      refine ⟨pyTry_ok _, ?_⟩
      intro hf _
      obtain ⟨m, hm⟩ := polygonGet_error_of api_key u hf
      exact ⟨m, by simp only [invoke, hm]; rfl⟩
  | get_analyst_ratings a =>
      refine ⟨pyTry_ok _, ?_⟩
      intro hf _
      obtain ⟨m, hm⟩ := polygonGet_error_of api_key u hf
      exact ⟨m, by simp only [invoke, hm]; rfl⟩
  | get_short_interest a =>
      refine ⟨pyTry_ok _, ?_⟩
      intro hf _
      obtain ⟨m, hm⟩ := polygonGet_error_of api_key u hf
      exact ⟨m, by simp only [invoke, hm]; rfl⟩
  | get_options_contracts a =>
      refine ⟨pyTry_ok _, ?_⟩
      intro hf _
      obtain ⟨m, hm⟩ := polygonGet_error_of api_key u hf
      exact ⟨m, by simp only [invoke, hm]; rfl⟩
  | get_options_snapshot a =>
      refine ⟨pyTry_ok _, ?_⟩
      intro hf _
      obtain ⟨m, hm⟩ := polygonGet_error_of api_key u hf
      exact ⟨m, by simp only [invoke, hm]; rfl⟩
  | get_balance_sheet a =>
      refine ⟨pyTry_ok _, ?_⟩
      intro hf _
      obtain ⟨m, hm⟩ := polygonGet_error_of api_key u hf
      exact ⟨m, by simp only [invoke, hm]; rfl⟩
  | get_cash_flow a =>
      refine ⟨pyTry_ok _, ?_⟩
      intro hf _
      obtain ⟨m, hm⟩ := polygonGet_error_of api_key u hf
      exact ⟨m, by simp only [invoke, hm]; rfl⟩
  | get_market_gainers_losers a =>
      refine ⟨pyTry_ok _, ?_⟩
      intro hf _
      obtain ⟨m, hm⟩ := polygonGet_error_of api_key u hf
      exact ⟨m, by simp only [invoke, hm]; rfl⟩
  | get_market_holidays =>
      refine ⟨pyTry_ok _, ?_⟩
      intro hf _
      obtain ⟨m, hm⟩ := polygonGet_error_of api_key u hf
      exact ⟨m, by simp only [invoke, hm]; rfl⟩
  | get_inflation_data a =>
      refine ⟨pyTry_ok _, ?_⟩
      intro hf _
      obtain ⟨m, hm⟩ := polygonGet_error_of api_key u hf
      exact ⟨m, by simp only [invoke, hm]; rfl⟩

/-- C1 witness: `get_last_trade` against a stubbed HTTP 500 returns an
`"Error: ..."` string. -/
theorem C1_witness :
    ∃ m, invoke (some "K") (.resp 500 (some (Json.obj .nil))) (.get_last_trade "NVDA") =
      .ok ("Error: " ++ m) :=
  (C1_amended (.get_last_trade "NVDA") (by decide) (some "K")
    (.resp 500 (some (Json.obj .nil)))).2
    (Or.inr (Or.inl ⟨by norm_num, by norm_num⟩)) rfl

/-- C1 counterexample: `stock_price` has no `try`/`except` (lines 81-110),
so a stubbed HTTP 500 raises `requests.HTTPError` out of the tool instead of
returning an `"Error: "` string, contrary to the claim's "for every
registered tool". -/
theorem C1_counterexample :
    invoke (some "KEY") (.resp 500 (some (Json.obj .nil))) (.stock_price "NVDA") =
      .error "HTTP error 500" := rfl

/-- C3 (amended): for the twenty-one pass-through tools, invoking with all
required arguments against a stubbed upstream returning status 200 and JSON
body `j` yields exactly `json.dumps(j, indent=2)`; `get_intraday_aggregates`
yields the pretty-printing of the session-augmented body when the
augmentation pass succeeds, and the `"Error: <message>"` string when the
per-bar `fromtimestamp`/`timedelta` raises (e.g. a bar timestamp outside
datetime's year range).  The claim's "every registered tool" fails for
`stock_price`, `stock_info`, `income_statement` and
`get_ticker_exchange_info`, which reformat the payload, and for the four
static tools and `convert_utc_to_et`, which ignore the upstream (see the
counterexample). -/
theorem C3_amended :
    (∀ (c : ToolCall) (key : String) (j : Json), toolName c ∈ passThroughNames →
       invoke (some key) (.resp 200 (some j)) c = .ok (Json.dumps j 0)) ∧
    (∀ (key : String) (a : IntradayArgs) (j j' : Json), intradayAugment j = .ok j' →
       invoke (some key) (.resp 200 (some j)) (.get_intraday_aggregates a) =
         .ok (Json.dumps j' 0)) ∧
    (∀ (key : String) (a : IntradayArgs) (j : Json) (m : String),
       intradayAugment j = .error m →
       invoke (some key) (.resp 200 (some j)) (.get_intraday_aggregates a) =
         .ok ("Error: " ++ m)) ∧
    intradayAugment (jobj [("results", jarr [jobj [("t", .num 253402300800000)]])]) =
      .error "year is out of range" := by
  refine ⟨?_, ?_, ?_, rfl⟩
  · intro c key j hmem
    cases c with
    | stock_price t => exact absurd hmem (by simp [toolName, passThroughNames])
    | stock_info t => exact absurd hmem (by simp [toolName, passThroughNames])
    | income_statement t => exact absurd hmem (by simp [toolName, passThroughNames])
    | get_market_hours_info => exact absurd hmem (by simp [toolName, passThroughNames])
    | convert_utc_to_et ts => exact absurd hmem (by simp [toolName, passThroughNames])
    | get_exchange_info => exact absurd hmem (by simp [toolName, passThroughNames])
    | get_sip_info => exact absurd hmem (by simp [toolName, passThroughNames])
    | get_market_data_coverage => exact absurd hmem (by simp [toolName, passThroughNames])
    | get_intraday_aggregates a => exact absurd hmem (by simp [toolName, passThroughNames])
    | get_ticker_exchange_info t => exact absurd hmem (by simp [toolName, passThroughNames])
    | get_aggregates a => rfl
    | get_previous_close a => rfl
    | get_last_trade t => rfl
    | get_last_quote t => rfl
    | get_snapshot_ticker mt t => rfl
    | get_market_status => rfl
    | search_tickers a => rfl
    | get_ticker_news a => rfl
    | get_dividends a => rfl
    | get_splits a => rfl
    | get_treasury_yields a => rfl
    | get_earnings a => rfl
    | get_analyst_ratings a => rfl
    | get_short_interest a => rfl
    | get_options_contracts a => rfl
    | get_options_snapshot a => rfl
    | get_balance_sheet a => rfl
    | get_cash_flow a => rfl
    | get_market_gainers_losers a => rfl
    | get_market_holidays => rfl
    | get_inflation_data a => rfl
  · intro key a j j' h
    calc invoke (some key) (.resp 200 (some j)) (.get_intraday_aggregates a)
        = pyTry (intradayAugment j >>= fun d => Except.ok (Json.dumps d 0)) := rfl
      _ = .ok (Json.dumps j' 0) := by rw [h]; rfl
  · intro key a j m h
    calc invoke (some key) (.resp 200 (some j)) (.get_intraday_aggregates a)
        = pyTry (intradayAugment j >>= fun d => Except.ok (Json.dumps d 0)) := rfl
      _ = .ok ("Error: " ++ m) := by rw [h]; rfl

/-- C3 witness: a pass-through tool returns the pretty-printed stub body. -/
theorem C3_witness :
    invoke (some "K") (.resp 200 (some (jobj [("x", Json.num 1)]))) (.get_last_trade "NVDA") =
      .ok (Json.dumps (jobj [("x", Json.num 1)]) 0) :=
  C3_amended.1 (.get_last_trade "NVDA") "K" (jobj [("x", Json.num 1)]) (by decide)

/-- C3 counterexample: `stock_price` is a registered tool, yet with a stubbed
body `{"results": []}` it returns its own f-string, not the pretty-printed
body. -/
theorem C3_counterexample :
    invoke (some "K") (.resp 200 (some (jobj [("results", jarr [])]))) (.stock_price "NVDA") =
      .ok "Stock price over the last month for NVDA: []" ∧
    Json.dumps (jobj [("results", jarr [])]) 0 ≠
      "Stock price over the last month for NVDA: []" := by
  constructor
  · rfl
  · decide

/-- C6 (amended): for every tool, the built query mapping contains exactly
the keys of the builder's own initial dict literal plus the keys whose
conditional insertion fired — supplied-and-truthy for truthiness-tested
parameters, supplied for `is not None`-tested parameters.  Hence omitting any
optional parameter whose declared default is `None` (or `False` for
`include_otc`) leaves its key absent, no key of another tool can appear, and
— the correction forced by the counterexample — `get_balance_sheet` and
`get_cash_flow` always include `ticker`, `timeframe` and `order`, the latter
two from their declared defaults even when the caller omits them. -/
theorem C6_amended :
    (∀ (a : AggArgs) (k : String), k ∈ pkeys (get_aggregates_params a) ↔
      (k = "adjusted" ∧ a.adjusted.isSome = true) ∨
      (k = "sort" ∧ truthyOptStr a.sort = true) ∨
      (k = "limit" ∧ truthyOptInt a.limit = true)) ∧
    (∀ (a : PrevCloseArgs) (k : String), k ∈ pkeys (get_previous_close_params a) ↔
      (k = "adjusted" ∧ a.adjusted.isSome = true)) ∧
    (∀ (a : SearchTickersArgs) (k : String), k ∈ pkeys (search_tickers_params a) ↔
      (k = "search" ∧ truthyOptStr a.search = true) ∨
      (k = "type" ∧ truthyOptStr a.type = true) ∨
      (k = "market" ∧ truthyOptStr a.market = true) ∨
      (k = "active" ∧ a.active.isSome = true) ∨
      (k = "limit" ∧ truthyOptInt a.limit = true) ∨
      (k = "sort" ∧ truthyOptStr a.sort = true) ∨
      (k = "order" ∧ truthyOptStr a.order = true)) ∧
    (∀ (a : NewsArgs) (k : String), k ∈ pkeys (get_ticker_news_params a) ↔
      (k = "ticker" ∧ truthyOptStr a.ticker = true) ∨
      (k = "published_utc" ∧ truthyOptStr a.published_utc = true) ∨
      (k = "limit" ∧ truthyOptInt a.limit = true) ∨
      (k = "sort" ∧ truthyOptStr a.sort = true) ∨
      (k = "order" ∧ truthyOptStr a.order = true)) ∧
    (∀ (a : DividendsArgs) (k : String), k ∈ pkeys (get_dividends_params a) ↔
      (k = "ticker" ∧ truthyOptStr a.ticker = true) ∨
      (k = "ex_dividend_date" ∧ truthyOptStr a.ex_dividend_date = true) ∨
      (k = "frequency" ∧ truthyOptInt a.frequency = true) ∨
      (k = "dividend_type" ∧ truthyOptStr a.dividend_type = true) ∨
      (k = "limit" ∧ truthyOptInt a.limit = true)) ∧
    (∀ (a : SplitsArgs) (k : String), k ∈ pkeys (get_splits_params a) ↔
      (k = "ticker" ∧ truthyOptStr a.ticker = true) ∨
      (k = "execution_date" ∧ truthyOptStr a.execution_date = true) ∨
      (k = "reverse_split" ∧ a.reverse_split.isSome = true) ∨
      (k = "limit" ∧ truthyOptInt a.limit = true)) ∧
    (∀ (a : TreasuryArgs) (k : String), k ∈ pkeys (get_treasury_yields_params a) ↔
      (k = "date" ∧ truthyOptStr a.date = true) ∨
      (k = "limit" ∧ truthyOptInt a.limit = true) ∨
      (k = "sort" ∧ truthyOptStr a.sort = true) ∨
      (k = "order" ∧ truthyOptStr a.order = true)) ∧
    (∀ (a : IntradayArgs) (k : String), k ∈ pkeys (get_intraday_aggregates_params a) ↔
      (k = "adjusted" ∧ a.adjusted.isSome = true) ∨
      (k = "sort" ∧ truthyOptStr a.sort = true) ∨
      (k = "limit" ∧ truthyOptInt a.limit = true) ∨
      (k = "include_otc" ∧ a.include_otc = true)) ∧
    (∀ (a : EarningsArgs) (k : String), k ∈ pkeys (get_earnings_params a) ↔
      (k = "ticker" ∧ truthyOptStr a.ticker = true) ∨
      (k = "date" ∧ truthyOptStr a.date = true) ∨
      (k = "limit" ∧ truthyOptInt a.limit = true) ∨
      (k = "sort" ∧ truthyOptStr a.sort = true) ∨
      (k = "order" ∧ truthyOptStr a.order = true)) ∧
    (∀ (a : AnalystArgs) (k : String), k ∈ pkeys (get_analyst_ratings_params a) ↔
      (k = "ticker" ∧ truthyOptStr a.ticker = true) ∨
      (k = "date" ∧ truthyOptStr a.date = true) ∨
      (k = "limit" ∧ truthyOptInt a.limit = true) ∨
      (k = "sort" ∧ truthyOptStr a.sort = true) ∨
      (k = "order" ∧ truthyOptStr a.order = true)) ∧
    (∀ (a : ShortInterestArgs) (k : String), k ∈ pkeys (get_short_interest_params a) ↔
      (k = "ticker" ∧ truthyOptStr a.ticker = true) ∨
      (k = "settlement_date" ∧ truthyOptStr a.settlement_date = true) ∨
      (k = "limit" ∧ truthyOptInt a.limit = true) ∨
      (k = "sort" ∧ truthyOptStr a.sort = true) ∨
      (k = "order" ∧ truthyOptStr a.order = true)) ∧
    (∀ (a : OptionsContractsArgs) (k : String), k ∈ pkeys (get_options_contracts_params a) ↔
      k = "underlying_asset" ∨
      (k = "contract_type" ∧ truthyOptStr a.contract_type = true) ∨
      (k = "strike_price" ∧ truthyOptFloat a.strike_price = true) ∨
      (k = "expiration_date" ∧ truthyOptStr a.expiration_date = true) ∨
      (k = "limit" ∧ truthyOptInt a.limit = true)) ∧
    (∀ (a : OptionsSnapshotArgs) (k : String), k ∈ pkeys (get_options_snapshot_params a) ↔
      (k = "strike_price" ∧ truthyOptFloat a.strike_price = true) ∨
      (k = "expiration_date" ∧ truthyOptStr a.expiration_date = true) ∨
      (k = "contract_type" ∧ truthyOptStr a.contract_type = true)) ∧
    (∀ (a : BalanceSheetArgs) (k : String), k ∈ pkeys (get_balance_sheet_params a) ↔
      k = "ticker" ∨ k = "timeframe" ∨ k = "order" ∨
      (k = "limit" ∧ truthyOptInt a.limit = true)) ∧
    (∀ (a : CashFlowArgs) (k : String), k ∈ pkeys (get_cash_flow_params a) ↔
      k = "ticker" ∨ k = "timeframe" ∨ k = "order" ∨
      (k = "limit" ∧ truthyOptInt a.limit = true)) ∧
    (∀ (a : GainersArgs) (k : String), k ∈ pkeys (get_market_gainers_losers_params a) ↔
      (k = "include_otc" ∧ a.include_otc = true) ∨
      (k = "limit" ∧ truthyOptInt a.limit = true)) ∧
    (∀ (a : InflationArgs) (k : String), k ∈ pkeys (get_inflation_data_params a) ↔
      (k = "date" ∧ truthyOptStr a.date = true) ∨
      (k = "limit" ∧ truthyOptInt a.limit = true) ∨
      (k = "sort" ∧ truthyOptStr a.sort = true)) ∧
    pkeys stock_price_params = ["adjusted", "sort", "limit"] ∧
    (∀ t : String, pkeys (income_statement_params t) = ["ticker", "timeframe", "limit", "order"]) := by
  refine ⟨?_, ?_, ?_, ?_, ?_, ?_, ?_, ?_, ?_, ?_, ?_, ?_, ?_, ?_, ?_, ?_, ?_,
    by decide, fun t => by simp [income_statement_params, pkeys]⟩ <;>
    · intro a k
      first
        | (simp only [get_aggregates_params]; rw [mem_pkeys_buildParams])
        | (simp only [get_previous_close_params]; rw [mem_pkeys_buildParams])
        | (simp only [search_tickers_params]; rw [mem_pkeys_buildParams])
        | (simp only [get_ticker_news_params]; rw [mem_pkeys_buildParams])
        | (simp only [get_dividends_params]; rw [mem_pkeys_buildParams])
        | (simp only [get_splits_params]; rw [mem_pkeys_buildParams])
        | (simp only [get_treasury_yields_params]; rw [mem_pkeys_buildParams])
        | (simp only [get_intraday_aggregates_params]; rw [mem_pkeys_buildParams])
        | (simp only [get_earnings_params]; rw [mem_pkeys_buildParams])
        | (simp only [get_analyst_ratings_params]; rw [mem_pkeys_buildParams])
        | (simp only [get_short_interest_params]; rw [mem_pkeys_buildParams])
        | (simp only [get_options_contracts_params]; rw [mem_pkeys_buildParams])
        | (simp only [get_options_snapshot_params]; rw [mem_pkeys_buildParams])
        | (simp only [get_balance_sheet_params]; rw [mem_pkeys_buildParams])
        | (simp only [get_cash_flow_params]; rw [mem_pkeys_buildParams])
        | (simp only [get_market_gainers_losers_params]; rw [mem_pkeys_buildParams])
        | (simp only [get_inflation_data_params]; rw [mem_pkeys_buildParams])
      simp [pkeys, insKey, insActive]
      try tauto

/-- C6 counterexample: invoking `get_balance_sheet` while omitting the
optional `timeframe` and `order` parameters (so they take their declared
defaults) still puts both keys into the query mapping. -/
theorem C6_counterexample :
    "timeframe" ∈ pkeys (get_balance_sheet_params ⟨"AAPL", "quarterly", none, "desc"⟩) ∧
    "order" ∈ pkeys (get_balance_sheet_params ⟨"AAPL", "quarterly", none, "desc"⟩) := by
  constructor <;> decide

/-- C9: for truthiness-tested optional parameters (`search`, `sort`, `limit`,
`frequency`, `strike_price`, `include_otc`, ...), supplying a falsy value
(`0`, `0.0`, the empty string, `False`) builds exactly the query mapping of
the omitted parameter; by contrast `adjusted`, `active` and `reverse_split`
are tested with `is not None`, so an explicit `False` is included as the
string `"false"`. -/
theorem C9_falsy_values :
    (∀ (ty mk : Option String) (act : Option Bool) (lim : Option Int) (so ord : Option String),
      search_tickers_params ⟨some "", ty, mk, act, lim, so, ord⟩ =
        search_tickers_params ⟨none, ty, mk, act, lim, so, ord⟩) ∧
    (∀ (se ty mk : Option String) (act : Option Bool) (so ord : Option String),
      search_tickers_params ⟨se, ty, mk, act, some 0, so, ord⟩ =
        search_tickers_params ⟨se, ty, mk, act, none, so, ord⟩) ∧
    (∀ (t : String) (m : Int) (ts : String) (f tod : DateArg) (adj : Option Bool)
        (so : Option String),
      get_aggregates_params ⟨t, m, ts, f, tod, adj, so, some 0⟩ =
        get_aggregates_params ⟨t, m, ts, f, tod, adj, so, none⟩) ∧
    (∀ (t : String) (m : Int) (ts : String) (f tod : DateArg) (adj : Option Bool)
        (lim : Option Int),
      get_aggregates_params ⟨t, m, ts, f, tod, adj, some "", lim⟩ =
        get_aggregates_params ⟨t, m, ts, f, tod, adj, none, lim⟩) ∧
    (∀ (tk ex : Option String) (dt : Option String) (lim : Option Int),
      get_dividends_params ⟨tk, ex, some 0, dt, lim⟩ =
        get_dividends_params ⟨tk, ex, none, dt, lim⟩) ∧
    (∀ (ua : String) (ct : Option String) (ex : Option String) (lim : Option Int),
      get_options_contracts_params ⟨ua, ct, some 0, ex, lim⟩ =
        get_options_contracts_params ⟨ua, ct, none, ex, lim⟩) ∧
    (∀ (t : String) (m : Int) (ts : String) (f tod : DateArg) (adj : Option Bool)
        (so : Option String) (lim : Option Int),
      "include_otc" ∉ pkeys (get_intraday_aggregates_params ⟨t, m, ts, f, tod, adj, so, lim, false⟩)) ∧
    (∀ (t : String) (m : Int) (ts : String) (f tod : DateArg),
      get_aggregates_params ⟨t, m, ts, f, tod, some false, none, none⟩ =
        [("adjusted", QVal.s "false")]) ∧
    search_tickers_params ⟨none, none, none, some false, none, none, none⟩ =
      [("active", QVal.s "false")] ∧
    get_splits_params ⟨none, none, some false, none⟩ =
      [("reverse_split", QVal.s "false")] := by
  refine ⟨fun ty mk act lim so ord => rfl, fun se ty mk act so ord => rfl,
    fun t m ts f tod adj so => rfl, fun t m ts f tod adj lim => rfl,
    fun tk ex dt lim => rfl, ?_, ?_, fun t m ts f tod => rfl, rfl, rfl⟩
  · intro ua ct ex lim
    simp only [get_options_contracts_params, buildParams, List.foldl_cons, List.foldl_nil,
      applyIns_float_zero, applyIns_float_none]
  · intro t m ts f tod adj so lim
    refine not_mem_pkeys_buildParams _ _ _ (by simp [pkeys]) ?_
    intro i hi he
    fin_cases hi <;> simp_all [insKey, insActive]

/-- C8 (amended): the augmentation of `get_intraday_aggregates` converts a
bar's timestamp to Eastern Time with the fixed offset of −5 hours and
attaches only the `market_session` and `et_time` keys: every other field of
the bar keeps its upstream value, and the bar's key set grows by exactly
those two keys.  (If the upstream bar itself carried a `market_session` or
`et_time` field, the dict assignment would overwrite it — the correction
forced by the counterexample.)  When a bar's instant `t/1000` (or its
−5-hour shift) leaves datetime's representable range, the per-bar
`fromtimestamp`/`timedelta` raises instead, caught by the tool's `try`.
`convert_utc_to_et` returns its four-field document with the session
classified at the same fixed −5-hour offset for representable timestamps,
and an `"Error: ..."` string when `fromtimestamp` or the `timedelta`
addition raises. -/
theorem C8_amended :
    (∀ (fs : JsonObj) (n : Int) (bar' : Json),
       fs.lookup "t" = some (.num n) → augmentBar (.obj fs) = .ok bar' →
       ∃ fs', bar' = .obj fs' ∧
         (∀ k, k ≠ "market_session" → k ≠ "et_time" → fs'.lookup k = fs.lookup k) ∧
         fs'.lookup "market_session" = some (.str (_determine_market_session
           (fromtimestamp (n.fdiv 1000 - 5 * 3600)).hour
           (fromtimestamp (n.fdiv 1000 - 5 * 3600)).minute)) ∧
         fs'.lookup "et_time" = some (.str (fmtYMDHMS
           (fromtimestamp (n.fdiv 1000 - 5 * 3600)) ++ " ET")) ∧
         (∀ k, k ∈ fs'.keys ↔ k ∈ fs.keys ∨ k = "market_session" ∨ k = "et_time")) ∧
    (∀ (fs : JsonObj) (n : Int),
       fs.lookup "t" = some (.num n) →
       (n.fdiv 1000 < datetimeMinTs ∨ datetimeMaxTs < n.fdiv 1000 ∨
         n.fdiv 1000 - 5 * 3600 < datetimeMinTs) →
       ∃ m, augmentBar (.obj fs) = .error m) ∧
    (∀ (ts : Int) (api_key : Option String) (u : Upstream) (j : Json),
       convert_utc_to_et_body ts = .ok j →
       invoke api_key u (.convert_utc_to_et ts) = .ok (Json.dumps j 0)) ∧
    (∀ (ts : Int) (api_key : Option String) (u : Upstream) (m : String),
       convert_utc_to_et_body ts = .error m →
       invoke api_key u (.convert_utc_to_et ts) = .ok ("Error: " ++ m)) ∧
    (∀ ts : Int, datetimeMinTs ≤ ts → ts ≤ datetimeMaxTs →
       datetimeMinTs ≤ ts - 5 * 3600 →
       convert_utc_to_et_body ts = .ok (convert_utc_to_et_document ts)) ∧
    (∀ ts : Int, ts < datetimeMinTs ∨ datetimeMaxTs < ts →
       ∃ m, convert_utc_to_et_body ts = .error m) ∧
    (∀ ts : Int, jsonLookup (convert_utc_to_et_document ts) "market_session" =
       some (.str (_determine_market_session (fromtimestamp (ts - 5 * 3600)).hour
         (fromtimestamp (ts - 5 * 3600)).minute))) := by
  refine ⟨?_, ?_, ?_, ?_, ?_, ?_, fun ts => rfl⟩
  · intro fs n bar' ht haug
    simp only [augmentBar, ht] at haug
    cases hfp : fromtimestampPy (n.fdiv 1000) with
    | error m => rw [hfp, except_bind_error] at haug; exact absurd haug (by simp)
    | ok utc =>
      rw [hfp, except_bind_ok] at haug
      cases htd : timedeltaHoursPy (n.fdiv 1000) (-5) with
      | error m => rw [htd, except_bind_error] at haug; exact absurd haug (by simp)
      | ok et =>
        rw [htd, except_bind_ok] at haug
        simp only [Except.ok.injEq] at haug
        have harith : n.fdiv 1000 + (-5) * 3600 = n.fdiv 1000 - 5 * 3600 := rfl
        have het : et = fromtimestamp (n.fdiv 1000 - 5 * 3600) := by
          unfold timedeltaHoursPy at htd
          by_cases hc : datetimeMinTs ≤ n.fdiv 1000 + (-5) * 3600 ∧
              n.fdiv 1000 + (-5) * 3600 ≤ datetimeMaxTs
          · rw [if_pos hc] at htd
            simp only [Except.ok.injEq] at htd
            rw [← htd, harith]
          · rw [if_neg hc] at htd
            exact absurd htd (by simp)
        subst het
        refine ⟨_, haug.symm, ?_, ?_, ?_, ?_⟩
        · intro k hk1 hk2
          rw [JsonObj.lookup_set, JsonObj.lookup_set]
          simp [hk1, hk2]
        · rw [JsonObj.lookup_set]
          simp [JsonObj.lookup_set]
        · rw [JsonObj.lookup_set]
          simp
        · intro k
          simp [JsonObj.mem_keys_set, or_assoc]
  · intro fs n ht hr
    cases hfp : fromtimestampPy (n.fdiv 1000) with
    | error m => exact ⟨m, by simp only [augmentBar, ht]; rw [hfp, except_bind_error]⟩
    | ok utc =>
      have hin : datetimeMinTs ≤ n.fdiv 1000 ∧ n.fdiv 1000 ≤ datetimeMaxTs := by
        by_contra hcon
        unfold fromtimestampPy at hfp
        rw [if_neg hcon] at hfp
        exact absurd hfp (by simp)
      have hlow : n.fdiv 1000 - 5 * 3600 < datetimeMinTs := by
        rcases hr with h | h | h
        · omega
        · omega
        · exact h
      have hne : ¬ (datetimeMinTs ≤ n.fdiv 1000 + (-5) * 3600 ∧
          n.fdiv 1000 + (-5) * 3600 ≤ datetimeMaxTs) := by
        rintro ⟨c1, c2⟩
        omega
      refine ⟨"date value out of range", ?_⟩
      simp only [augmentBar, ht]
      rw [hfp, except_bind_ok]
      rw [show timedeltaHoursPy (n.fdiv 1000) (-5) = .error "date value out of range" from by
        unfold timedeltaHoursPy
        rw [if_neg hne]]
      rw [except_bind_error]
  · intro ts api_key u j h
    calc invoke api_key u (.convert_utc_to_et ts)
        = pyTry (convert_utc_to_et_body ts >>= fun r => Except.ok (Json.dumps r 0)) := rfl
      _ = .ok (Json.dumps j 0) := by rw [h]; rfl
  · intro ts api_key u m h
    calc invoke api_key u (.convert_utc_to_et ts)
        = pyTry (convert_utc_to_et_body ts >>= fun r => Except.ok (Json.dumps r 0)) := rfl
      _ = .ok ("Error: " ++ m) := by rw [h]; rfl
  · intro ts h1 h2 h3
    have e1 : datetimeMinTs ≤ ts + (-5) * 3600 := by omega
    have e2 : ts + (-5) * 3600 ≤ datetimeMaxTs := by omega
    unfold convert_utc_to_et_body
    rw [fromtimestampPy_in_range ts h1 h2, except_bind_ok,
      timedeltaHoursPy_in_range ts (-5) e1 e2, except_bind_ok]
    rfl
  · intro ts h
    have hne : ¬ (datetimeMinTs ≤ ts ∧ ts ≤ datetimeMaxTs) := by
      rintro ⟨c1, c2⟩
      rcases h with h | h <;> omega
    refine ⟨"year is out of range", ?_⟩
    unfold convert_utc_to_et_body fromtimestampPy
    rw [if_neg hne, except_bind_error]

/-- C8 witness: a bar with fields `t` and `vw` keeps `vw` and gains the two
session keys; and `convert_utc_to_et` at a representable timestamp returns
the four-field document. -/
theorem C8_witness :
    (∃ fs', augmentBar (Json.obj (.cons "t" (.num 0) (.cons "vw" (.num 7) .nil))) =
        .ok (.obj fs') ∧ fs'.lookup "vw" = some (.num 7)) ∧
    invoke (some "K") (.resp 200 none) (.convert_utc_to_et 0) =
      .ok (Json.dumps (convert_utc_to_et_document 0) 0) := by
  constructor
  · obtain ⟨fs', h1, h2, -, -, -⟩ :=
      C8_amended.1 (.cons "t" (.num 0) (.cons "vw" (.num 7) .nil)) 0
        (Json.obj (.cons "t" (.num 0) (.cons "vw" (.num 7)
          (.cons "market_session" (.str "after_hours")
            (.cons "et_time" (.str "1969-12-31 19:00:00 ET") .nil))))) rfl rfl
    exact ⟨fs', by rw [← h1]; rfl, by rw [h2 "vw" (by decide) (by decide)]; rfl⟩
  · exact C8_amended.2.2.1 0 (some "K") (.resp 200 none) (convert_utc_to_et_document 0)
      (C8_amended.2.2.2.2.1 0 (by decide) (by decide) (by decide))

/-- C8 counterexample: a bar whose upstream payload already contains a
`market_session` field has that field overwritten by the augmentation, so
not "every field present in the upstream response retains its upstream
value". -/
theorem C8_counterexample :
    augmentBar (Json.obj (.cons "t" (.num 0) (.cons "market_session" (.str "upstream") .nil))) =
      .ok (.obj (.cons "t" (.num 0) (.cons "market_session" (.str "after_hours")
        (.cons "et_time" (.str "1969-12-31 19:00:00 ET") .nil)))) ∧
    "after_hours" ≠ "upstream" := by
  exact ⟨rfl, by decide⟩

/-- C6 witness: a concrete invocation of `search_tickers` that omits `sort`
has no `sort` key in its query. -/
theorem C6_witness :
    "sort" ∉ pkeys (search_tickers_params ⟨some "app", none, none, none, none, none, none⟩) := by
  intro h
  have hc := (C6_amended.2.2.1 ⟨some "app", none, none, none, none, none, none⟩ "sort").mp h
  simp [truthyOptStr, truthyOptInt] at hc

/-- C9 witness: an empty-string `search` builds the same query as omitting
it. -/
theorem C9_witness :
    search_tickers_params ⟨some "", none, none, none, none, none, none⟩ =
      search_tickers_params ⟨none, none, none, none, none, none, none⟩ :=
  C9_falsy_values.1 none none none none none none
